import Mathlib

/-!
Verification of the dependency-resolving package importer of the
`hiudyy/import` repository (`src/importer.js`, `src/network.js`).

The JavaScript code is shallowly embedded:

* pure string functions (`parsePackageString`, the registry URL builders,
  `encodeURIComponent`) are translated directly;
* the process-wide mutable maps/sets (`virtualModules`,
  `packageMetadataCache`, `importingDependencies`, `failedImports`,
  `require.cache`) become explicit fields of a state record `St`, with
  JavaScript `Map`/`Set` semantics modelled by insertion-ordered
  association lists;
* the HTTP transport, JSON decoding, `semver.validRange` and
  `Module.prototype._compile` are external effects; they are modelled as
  an oracle record `Env` mapping URLs / source text to outcomes.  Every
  URL handed to the transport is additionally recorded in the
  observational field `St.fetchLog` so that fetch counts can be stated;
* `async`/`await` with `Promise.allSettled` over chunks is linearised:
  the scheduler is cooperative (single event loop) and the code awaits
  every settlement, so processing the members of a chunk in order is a
  valid schedule and the only one the state claims depend on;
* possible non-termination of the recursive dependency walk is modelled
  with a fuel parameter (`none` = out of fuel);
* thrown exceptions become `Except String` values carrying `err.message`;
* `Logger.warn` appends to `St.warnings`; the spinner and the other log
  levels are pure presentation and are not part of the state.
-/

/-- JavaScript `str.split(sep)` for a one-character separator, on char
lists: `"" ↦ [""]`, `"@a" ↦ ["", "a"]`, `"a@b" ↦ ["a", "b"]`. -/
def splitChar (sep : Char) : List Char → List (List Char)
  | [] => [[]]
  | c :: cs =>
    let r := splitChar sep cs
    if c = sep then [] :: r
    else
      match r with
      | [] => [[c]]
      | h :: t => (c :: h) :: t

/-- JavaScript `arr.join(sep)` for a one-character separator. -/
def joinSep (sep : Char) : List (List Char) → List Char
  | [] => []
  | [l] => l
  | l :: ls => l ++ sep :: joinSep sep ls

/-- JavaScript `str.startsWith(p)` on char lists. -/
def startsWithL : List Char → List Char → Bool
  | [], _ => true
  | _ :: _, [] => false
  | p :: ps, c :: cs => p = c && startsWithL ps cs

/-- JavaScript `Set.has` / `Array.includes` on a list of strings. -/
def containsS : List String → String → Bool
  | [], _ => false
  | x :: xs, k => if x = k then true else containsS xs k

/-- JavaScript `Set.add`: append if absent (insertion order preserved). -/
def addS (l : List String) (k : String) : List String :=
  if containsS l k then l else l ++ [k]

/-- JavaScript `Set.delete`: remove the (unique) occurrence of a key. -/
def eraseFirst : List String → String → List String
  | [], _ => []
  | x :: xs, k => if x = k then xs else x :: eraseFirst xs k

/-- JavaScript `Map.get` on an insertion-ordered association list. -/
def getA {α : Type} : List (String × α) → String → Option α
  | [], _ => none
  | (k', v) :: rest, k => if k' = k then some v else getA rest k

/-- JavaScript `Map.set`: update in place, or append a new binding. -/
def setA {α : Type} : List (String × α) → String → α → List (String × α)
  | [], k, v => [(k, v)]
  | (k', v') :: rest, k, v =>
    if k' = k then (k, v) :: rest else (k', v') :: setA rest k v

/-- JavaScript `Map.has`. -/
def hasA {α : Type} (m : List (String × α)) (k : String) : Bool :=
  (getA m k).isSome

/-- JavaScript object key insertion (`obj[k] = v` with `undefined`
values): re-assignment keeps the original key position. -/
def insertKey (l : List String) (k : String) : List String :=
  if containsS l k then l else l ++ [k]

/-- JavaScript `a || b` for a possibly-missing string, with both
`undefined` and the empty string falsy. -/
def orFalsy (a : Option String) (b : String) : String :=
  match a with
  | some s => if s.isEmpty then b else s
  | none => b

/-- `modules.slice(i, i + MAX_CONCURRENT_DOWNLOADS)` chunking with the
source's hard-coded limit `MAX_CONCURRENT_DOWNLOADS = 5`. -/
def chunksOf5 {α : Type} : List α → List (List α)
  | [] => []
  | a :: b :: c :: d :: e :: rest => [a, b, c, d, e] :: chunksOf5 rest
  | l => [l]

/-- Maximum concurrent downloads (`importer.js` line 28). -/
def MAX_CONCURRENT_DOWNLOADS : Nat := 5

/-- Result of `parsePackageString` (`importer.js` lines 45-84). -/
structure ParsedPackage where
  name : String
  version : String
  source : String
  originalName : String
  aliasName : Option String
deriving DecidableEq, Repr

/-- `result.version.replace(/[\^~]/g, '')` applied when the version is
not `latest` (`importer.js` lines 79-81). -/
def cleanVersion (v : String) : String :=
  if v = "latest" then v
  else (v.toList.filter (fun c => !(c = '^' || c = '~'))).asString

/-- `parsePackageString` (`importer.js` lines 45-84).  Splits the input
on `@`, re-joins the tail, then branches on a registry prefix
(`npm:`/`github:`/`yarn:`), on `alias.startsWith('@')` (the scoped-name
branch), and otherwise treats the tail as the version. -/
def parsePackageString (input : String) : ParsedPackage :=
  let parts := splitChar '@' input.toList
  let aliasPart := (parts.headD []).asString
  let restL := parts.drop 1
  let pkgSpec := (joinSep '@' restL).asString
  if pkgSpec.isEmpty then
    { name := aliasPart, version := "latest", source := "npm",
      originalName := input, aliasName := none }
  else if startsWithL "npm:".toList pkgSpec.toList
      || startsWithL "github:".toList pkgSpec.toList
      || startsWithL "yarn:".toList pkgSpec.toList then
    -- substring(indexOf(':') + 1) and substring(0, indexOf(':'))
    let nm := ((pkgSpec.toList.dropWhile (fun c => c ≠ ':')).drop 1).asString
    let src := (pkgSpec.toList.takeWhile (fun c => c ≠ ':')).asString
    { name := nm, version := cleanVersion "latest", source := src,
      originalName := input, aliasName := some aliasPart }
  else if startsWithL "@".toList aliasPart.toList then
    -- scoped-package branch; `alias` is the segment before the first
    -- `@` of the input, so it can never itself start with `@`
    { name := aliasPart ++ "@" ++ pkgSpec, version := cleanVersion "latest",
      source := "npm", originalName := input, aliasName := none }
  else
    { name := aliasPart, version := cleanVersion pkgSpec, source := "npm",
      originalName := input, aliasName := none }

/-- A character `encodeURIComponent` leaves unescaped. -/
def uriUnreserved (c : Char) : Bool :=
  (('A' ≤ c && c ≤ 'Z') || ('a' ≤ c && c ≤ 'z') || ('0' ≤ c && c ≤ '9')
    || c = '-' || c = '_' || c = '.' || c = '!' || c = '~' || c = '*'
    || c = '\'' || c = '(' || c = ')')

/-- Upper-case hexadecimal digit. -/
def hexDigit (n : Nat) : Char :=
  if n < 10 then Char.ofNat ('0'.toNat + n) else Char.ofNat ('A'.toNat + n - 10)

/-- UTF-8 bytes of a character (as numbers below 256). -/
def utf8Bytes (c : Char) : List Nat :=
  let n := c.toNat
  if n < 0x80 then [n]
  else if n < 0x800 then [0xC0 + n / 0x40, 0x80 + n % 0x40]
  else if n < 0x10000 then
    [0xE0 + n / 0x1000, 0x80 + (n / 0x40) % 0x40, 0x80 + n % 0x40]
  else
    [0xF0 + n / 0x40000, 0x80 + (n / 0x1000) % 0x40,
     0x80 + (n / 0x40) % 0x40, 0x80 + n % 0x40]

/-- Percent-encoding of one character. -/
def encChar (c : Char) : List Char :=
  if uriUnreserved c then [c]
  else (utf8Bytes c).foldr (fun b acc => '%' :: hexDigit (b / 16) :: hexDigit (b % 16) :: acc) []

/-- `encodeURIComponent` on char lists. -/
def encodeURIComponentL : List Char → List Char
  | [] => []
  | c :: cs => encChar c ++ encodeURIComponentL cs

/-- JavaScript `encodeURIComponent` (escapes everything but
`A-Z a-z 0-9 - _ . ! ~ * ' ( )`; in particular `/` becomes `%2F` and
`@` becomes `%40`). -/
def encodeURIComponent (s : String) : String :=
  (encodeURIComponentL s.toList).asString

/-- `name.startsWith('@') ? `@${encodeURIComponent(name.slice(1))}` :
encodeURIComponent(name)` (`network.js` lines 108-110 and 118-120). -/
def encodeNpmName (name : String) : String :=
  match name.toList with
  | c :: rest =>
    if c = '@' then "@" ++ encodeURIComponent rest.asString
    else encodeURIComponent name
  | [] => encodeURIComponent name

/-- `getNpmPackageUrl` (`network.js` lines 107-112). -/
def getNpmPackageUrl (name version : String) : String :=
  "https://unpkg.com/" ++ encodeNpmName name
    ++ (if version.isEmpty then "" else "@" ++ version) ++ "/package.json"

/-- `getNpmFileUrl` (`network.js` lines 117-122). -/
def getNpmFileUrl (name version filePath : String) : String :=
  "https://unpkg.com/" ++ encodeNpmName name
    ++ (if version.isEmpty then "" else "@" ++ version) ++ "/" ++ filePath

/-- `getNpmRegistryUrl` (`network.js` lines 127-134).  A scoped name
without a `/` yields the JavaScript string `"undefined"` for the
missing `split('/')[1]`. -/
def getNpmRegistryUrl (name version : String) : String :=
  let scope := match name.toList with
    | '@' :: _ => ((splitChar '/' name.toList).headD []).asString
    | _ => ""
  let packageName :=
    if scope.isEmpty then name
    else ((splitChar '/' name.toList).drop 1).headD "undefined".toList |>.asString
  let registryPath :=
    if scope.isEmpty then packageName else scope ++ "/" ++ packageName
  "https://registry.npmjs.org/" ++ registryPath ++ "/"
    ++ (if version.isEmpty then "latest" else version)

/-- `getYarnPackageUrl` (`network.js` lines 140-151); `yarnRegistry` is
the `process.env.YARN_REGISTRY` override. -/
def getYarnPackageUrl (yarnRegistry : Option String) (name version : String) : String :=
  let reg := orFalsy yarnRegistry "https://registry.yarnpkg.com"
  let scope := match name.toList with
    | '@' :: _ => ((splitChar '/' name.toList).headD []).asString
    | _ => ""
  let packageName :=
    if scope.isEmpty then name
    else ((splitChar '/' name.toList).drop 1).headD "undefined".toList |>.asString
  let registryPath :=
    if scope.isEmpty then packageName else scope ++ "/" ++ packageName
  reg ++ "/" ++ registryPath
    ++ (if version.isEmpty then "/latest" else "/" ++ version)

/-- `getYarnFileUrl` (`network.js` lines 157-160): falls back to unpkg. -/
def getYarnFileUrl (name version filePath : String) : String :=
  getNpmFileUrl name version filePath

/-- The subset of a `package.json` manifest the importer reads
(spec §3 `PackageManifest`).  Missing fields are `none`; a JavaScript
string field that is present but empty is falsy for `resolveMainFile`. -/
structure Manifest where
  version : String
  main : Option String
  module : Option String
  dependencies : List (String × String)
deriving DecidableEq, Repr

/-- `resolveMainFile` (`importer.js` lines 35-38):
`pkgJson.module || pkgJson.main || 'index.js'`. -/
def resolveMainFile (pkgJson : Manifest) : String :=
  orFalsy pkgJson.module (orFalsy pkgJson.main "index.js")

/-- Oracle for the importer's external effects: the transport
(`fetchJson` / `fetchWithRetry` by URL, already folded with JSON
decoding — an `Except` value is the thrown `err.message`),
`Module.prototype._compile` (`some msg` = the compile threw `msg`),
`semver.validRange` truthiness, and `process.env.YARN_REGISTRY`. -/
structure Env where
  fetchJson : String → Except String Manifest
  fetchText : String → Except String String
  compile : String → Option String
  validRange : String → Bool
  yarnRegistry : Option String

/-- The process-wide mutable state of `importer.js` (lines 16-25 and
`require.cache`), plus the observational `fetchLog` (every URL handed
to the transport) and `warnings` (every `Logger.warn` message). -/
structure St where
  virtualModules : List (String × String)
  packageMetadataCache : List (String × Manifest)
  importingDependencies : List String
  failedImports : List (String × String)
  requireCache : List String
  fetchLog : List String
  warnings : List String
deriving DecidableEq, Repr

/-- The initial (process start) state: everything empty. -/
def St.initial : St :=
  { virtualModules := [], packageMetadataCache := [],
    importingDependencies := [], failedImports := [],
    requireCache := [], fetchLog := [], warnings := [] }

/-- `Logger.warn` (timestamps are presentation and not modelled). -/
def warnLog (st : St) (msg : String) : St :=
  { st with warnings := st.warnings ++ [msg] }

/-- A transport fetch of JSON: consults the oracle and records the URL
in the fetch log. -/
def fetchJsonE (env : Env) (st : St) (url : String) :
    Except String Manifest × St :=
  (env.fetchJson url, { st with fetchLog := st.fetchLog ++ [url] })

/-- A transport fetch of raw text: consults the oracle and records the
URL in the fetch log. -/
def fetchTextE (env : Env) (st : St) (url : String) :
    Except String String × St :=
  (env.fetchText url, { st with fetchLog := st.fetchLog ++ [url] })

/-- `importModuleFiles` (`importer.js` lines 233-254): fetch the code
(unless it is passed directly), compile it, and only then register the
module path in `require.cache` and the name in `virtualModules`.  A
compile exception is re-thrown as `Failed to compile <name>: <msg>`. -/
def importModuleFiles (env : Env) (st : St)
    (name urlOrContent : String) (isContent : Bool) :
    Except String Unit × St :=
  let (codeRes, st) :=
    if isContent then (Except.ok urlOrContent, st)
    else fetchTextE env st urlOrContent
  match codeRes with
  | Except.error e => (Except.error e, st)
  | Except.ok code =>
    let modulePath := "/virtual_modules/" ++ name ++ ".js"
    match env.compile code with
    | some msg =>
      (Except.error ("Failed to compile " ++ name ++ ": " ++ msg), st)
    | none =>
      (Except.ok (),
        { st with requireCache := addS st.requireCache modulePath,
                  virtualModules := setA st.virtualModules name modulePath })

/-- The shape of one settled per-name outcome
(`{ success, name, error }`, `importer.js` lines 141, 145, 319, 321). -/
structure MemberResult where
  success : Bool
  name : String
  error : Option String
deriving DecidableEq, Repr

/-- The per-dependency loop of `importFromRegistry` (`importer.js`
lines 137-147), linearised: each dependency is imported through the
callback `f` with its `semver.validRange`-checked version, and a
failure is caught, warned about, and recorded in `failedImports`
without aborting the siblings.  `none` propagates fuel exhaustion. -/
def runDeps (f : St → String → Option (Except String Unit × St))
    (vr : String → Bool) :
    St → List (String × String) → Option (List MemberResult × St)
  | st, [] => some ([], st)
  | st, (depName, depVersion) :: rest =>
    let resolvedVersion := if vr depVersion then depVersion else "latest"
    match f st (depName ++ "@" ++ resolvedVersion) with
    | none => none
    | some (Except.ok _, st) =>
      match runDeps f vr st rest with
      | none => none
      | some (os, st) =>
        some ({ success := true, name := depName, error := none } :: os, st)
    | some (Except.error e, st) =>
      let st := warnLog st
        ("Failed to import dependency " ++ depName ++ ": " ++ e)
      let st := { st with failedImports := setA st.failedImports depName e }
      match runDeps f vr st rest with
      | none => none
      | some (os, st) =>
        some ({ success := false, name := depName, error := some e } :: os, st)

/-- The chunked dependency loop (`importer.js` lines 135-151): chunks
of `MAX_CONCURRENT_DOWNLOADS` are processed in order; the settled
results are concatenated. -/
def runDepChunks (f : St → String → Option (Except String Unit × St))
    (vr : String → Bool) :
    St → List (List (String × String)) → Option (List MemberResult × St)
  | st, [] => some ([], st)
  | st, c :: cs =>
    match runDeps f vr st c with
    | none => none
    | some (os, st) =>
      match runDepChunks f vr st cs with
      | none => none
      | some (os2, st) => some (os ++ os2, st)

/-- Lines 110-127 of `importFromRegistry`: check the manifest cache
(keyed `name@version`), else fetch from the primary source (unpkg or
the Yarn registry), falling back to the npm registry; a successful
fetch is cached. -/
def fetchManifest (env : Env) (st : St) (name version source : String) :
    Except String Manifest × St :=
  let cacheKey := name ++ "@" ++ version
  match getA st.packageMetadataCache cacheKey with
  | some pkgJson => (Except.ok pkgJson, st)
  | none =>
    let packageUrl :=
      if source = "yarn" then getYarnPackageUrl env.yarnRegistry name version
      else getNpmPackageUrl name version
    match fetchJsonE env st packageUrl with
    | (Except.ok pkgJson, st) =>
      (Except.ok pkgJson,
        { st with packageMetadataCache := setA st.packageMetadataCache cacheKey pkgJson })
    | (Except.error _, st) =>
      let registryUrl := getNpmRegistryUrl name version
      match fetchJsonE env st registryUrl with
      | (Except.ok pkgJson, st) =>
        (Except.ok pkgJson,
          { st with packageMetadataCache := setA st.packageMetadataCache cacheKey pkgJson })
      | (Except.error e, st) => (Except.error e, st)

/-- The body of the `try` block of `importFromRegistry`
(`importer.js` lines 109-170): get the manifest (`fetchManifest`),
then import the declared dependencies in chunks through the recursion
callback `impFn` and the main file, and warn about failed
dependencies.  `none` propagates fuel exhaustion of the recursion. -/
def importRegistryBody (impFn : St → String → Option (Except String Unit × St))
    (env : Env) (st : St) (name version source : String) :
    Option (Except String Unit × St) :=
  match fetchManifest env st name version source with
  | (Except.error e, st) => some (Except.error e, st)
  | (Except.ok pkgJson, st) =>
    match runDepChunks impFn env.validRange st (chunksOf5 pkgJson.dependencies) with
    | none => none
    | some (results, st) =>
      let mainFile := resolveMainFile pkgJson
      let moduleUrl :=
        if source = "yarn" then getYarnFileUrl name pkgJson.version mainFile
        else getNpmFileUrl name pkgJson.version mainFile
      match importModuleFiles env st name moduleUrl false with
      | (Except.error e, st) => some (Except.error e, st)
      | (Except.ok _, st) =>
        -- lines 163-170: warn about dependencies that failed
        let failed := results.filter (fun r => !r.success)
        let st :=
          if failed.isEmpty then st
          else failed.foldl
            (fun st f => warnLog st
              ("  - " ++ orFalsy (some f.name) "Unknown" ++ ": " ++ (f.error.getD "")))
            (warnLog st ("Some dependencies of " ++ name ++ " failed to import:"))
        some (Except.ok (), st)

/-- `importFromRegistry` (`importer.js` lines 91-178).  Per resolved
name: skip if already loaded; skip with a warning if currently
in-flight (circular dependency); otherwise mark in-flight, run the
`try` body (`importRegistryBody`); the `catch` records the name in
`failedImports` and re-throws, and the `finally` removes the name from
the in-flight set on both exits.  The fuel bounds the dependency
recursion depth. -/
def importFromRegistry (fuel : Nat) (env : Env) (st : St)
    (pkg : String) (source : String) :
    Option (Except String Unit × St) :=
  match fuel with
  | 0 => none
  | n + 1 =>
    let parsed := parsePackageString pkg
    let name := parsed.name
    let version := parsed.version
    -- line 94 also computes `moduleName`, which this function never uses
    if hasA st.virtualModules name then
      some (Except.ok (), st)
    else if containsS st.importingDependencies name then
      some (Except.ok (), warnLog st
        ("Circular dependency detected for " ++ name ++ ", skipping"))
    else
      let st := { st with
        importingDependencies := addS st.importingDependencies name }
      match importRegistryBody (fun st p => importFromRegistry n env st p source)
          env st name version source with
      | none => none
      | some (Except.error e, st) =>
        some (Except.error e,
          { st with
              failedImports := setA st.failedImports name e,
              importingDependencies := eraseFirst st.importingDependencies name })
      | some (Except.ok _, st) =>
        some (Except.ok (),
          { st with importingDependencies := eraseFirst st.importingDependencies name })

/-- JavaScript `str.replace(pat, '')`: remove the first occurrence. -/
def removeFirstOcc (pat : List Char) : List Char → List Char
  | [] => []
  | c :: cs =>
    if startsWithL pat (c :: cs) then (c :: cs).drop pat.length
    else c :: removeFirstOcc pat cs

/-- One branch probe of `importFromGitHub` (`importer.js` lines
200-212): fetch `package.json` from the branch, resolve the entry file,
and fetch its contents. -/
def tryGitHubBranch (env : Env) (st : St)
    (owner name branch : String) : Except String String × St :=
  let url := "https://raw.githubusercontent.com/" ++ owner ++ "/" ++ name
    ++ "/" ++ branch ++ "/package.json"
  match fetchJsonE env st url with
  | (Except.error e, st) => (Except.error e, st)
  | (Except.ok pkgJson, st) =>
    let mainFile := resolveMainFile pkgJson
    let moduleUrl := "https://raw.githubusercontent.com/" ++ owner ++ "/"
      ++ name ++ "/" ++ branch ++ "/" ++ mainFile
    fetchTextE env st moduleUrl

/-- The `for (const branch of branches)` loop of `importFromGitHub`
(`importer.js` lines 200-212): the first branch whose manifest and
entry file both fetch assigns `content` and breaks — even when the
fetched file is empty — while the last caught error is remembered.
Returns the fetched content (`none` when every branch failed) together
with the last error. -/
def githubBranchLoop (env : Env) (owner name : String) :
    St → List String → Option String → Option String × Option String × St
  | st, [], lastErr => (none, lastErr, st)
  | st, b :: bs, lastErr =>
    match tryGitHubBranch env st owner name b with
    | (Except.ok content, st) => (some content, lastErr, st)
    | (Except.error e, st) => githubBranchLoop env owner name st bs (some e)

/-- `importFromGitHub` (`importer.js` lines 184-225).  The destructured
`name` of a repo string without `/` is JavaScript `undefined`, which
stringifies as `"undefined"` wherever it is used.  The `if (!content)`
check of line 214 treats both an unset `content` and a successfully
fetched empty entry file as failure, throwing the last remembered
branch error (or the generic message when there is none). -/
def importFromGitHub (env : Env) (st : St) (repo : String) :
    Except String Unit × St :=
  let stripped := (removeFirstOcc "github:".toList repo.toList).asString
  let parts := splitChar '/' stripped.toList
  let owner := (parts.headD []).asString
  let name := ((parts.drop 1).headD "undefined".toList).asString
  if hasA st.virtualModules name then (Except.ok (), st)
  else
    match githubBranchLoop env owner name st ["main", "master"] none with
    | (contentOpt, lastErr, st) =>
      let content := contentOpt.getD ""
      if content.isEmpty then
        let e := lastErr.getD "Failed to fetch repository content"
        (Except.error e, { st with failedImports := setA st.failedImports name e })
      else
        match importModuleFiles env st name content true with
        | (Except.error e, st) =>
          (Except.error e, { st with failedImports := setA st.failedImports name e })
        | (Except.ok _, st) => (Except.ok (), st)

/-- One member of the batch (`importer.js` lines 302-323): parse the
specifier, dispatch on its source, record the module name in `results`
on success, and catch a failure as a settled `{ success: false }`. -/
def importOneMember (fuel : Nat) (env : Env) (st : St)
    (results : List String) (mod : String) :
    Option (List String × MemberResult × St) :=
  let parsed := parsePackageString mod
  let moduleName := orFalsy parsed.aliasName
    (((splitChar '/' parsed.name.toList).getLastD []).asString)
  let res :=
    if parsed.source = "npm" || parsed.source = "yarn" then
      importFromRegistry fuel env st mod parsed.source
    else if parsed.source = "github" then
      some (importFromGitHub env st mod)
    else
      importFromRegistry fuel env st mod "npm"
  match res with
  | none => none
  | some (Except.ok _, st) =>
    some (insertKey results moduleName,
      { success := true, name := moduleName, error := none }, st)
  | some (Except.error e, st) =>
    some (results, { success := false, name := mod, error := some e }, st)

/-- Sequential (linearised) processing of the members of one chunk. -/
def runMembers (fuel : Nat) (env : Env) :
    List String → List String → St →
    Option (List String × List MemberResult × St)
  | results, [], st => some (results, [], st)
  | results, m :: ms, st =>
    match importOneMember fuel env st results m with
    | none => none
    | some (results, o, st) =>
      match runMembers fuel env results ms st with
      | none => none
      | some (results, os, st) => some (results, o :: os, st)

/-- The summary warning block of `importModules` (lines 338-343). -/
def summaryWarn (st : St) : St :=
  st.failedImports.foldl
    (fun st p => warnLog st ("  - " ++ p.1 ++ ": " ++ p.2))
    (warnLog st "\nImport completed with some failures:")

/-- The chunk loop of `importModules` (lines 300-335): process each
chunk, then warn about its failures; after all chunks, warn a summary
when `failedImports` is non-empty. -/
def runBatchChunks (fuel : Nat) (env : Env) :
    List String → List (List String) → St → Option (List String × St)
  | results, [], st =>
    some (results, if st.failedImports.isEmpty then st else summaryWarn st)
  | results, c :: cs, st =>
    match runMembers fuel env results c st with
    | none => none
    | some (results, os, st) =>
      let st := (os.filter (fun o => !o.success)).foldl
        (fun st o => warnLog st
          ("Failed to import " ++ orFalsy (some o.name) "Unknown"
            ++ ": " ++ (o.error.getD "")))
        st
      runBatchChunks fuel env results cs st

/-- `importModules` (`importer.js` lines 295-346), the batch import:
clear `failedImports`, process the specifiers in chunks of
`MAX_CONCURRENT_DOWNLOADS`, and return the `results` object — the
insertion-ordered keys of `results` (their values are all the
JavaScript `undefined` returned by the per-source importers). -/
def importModules (fuel : Nat) (env : Env) (st : St)
    (modules : List String) : Option (List String × St) :=
  let st := { st with failedImports := [] }
  runBatchChunks fuel env [] (chunksOf5 modules) st

/-- `clearVirtualModules` (`importer.js` lines 271-279): delete every
registered path from `require.cache`, then clear `virtualModules`,
`packageMetadataCache` and `failedImports`.  (The in-flight set
`importingDependencies` is not touched by this function.) -/
def clearVirtualModules (st : St) : St :=
  let rc := st.virtualModules.foldl (fun rc p => eraseFirst rc p.2) st.requireCache
  { st with
      requireCache := rc,
      virtualModules := [],
      packageMetadataCache := [],
      failedImports := [] }

/-- `listVirtualModules` (`importer.js` lines 260-266). -/
def listVirtualModules (st : St) : List (String × String × Bool) :=
  st.virtualModules.map (fun p => (p.1, p.2, containsS st.requireCache p.2))

/-- `NetworkError` (`network.js` lines 4-11): message, HTTP status
code, and offending URL. -/
structure NetworkError where
  message : String
  statusCode : Nat
  url : String
deriving DecidableEq, Repr

/-- `INITIAL_RETRY_DELAY` (`network.js` line 14). -/
def INITIAL_RETRY_DELAY : Nat := 1000

/-- `MAX_RETRY_DELAY` (`network.js` line 15). -/
def MAX_RETRY_DELAY : Nat := 10000

/-- `BACKOFF_FACTOR` (`network.js` line 16). -/
def BACKOFF_FACTOR : Nat := 2

/-- The observable outcome of one HTTP attempt of `fetchWithRetry`:
a body, an HTTP error status (`res.statusCode >= 400`), a socket
timeout, or a transport-level error. -/
inductive AttemptOutcome where
  | success (body : String)
  | httpError (status : Nat) (statusMessage : String)
  | timeout
  | transportError (msg : String)
deriving DecidableEq, Repr

/-- The `NetworkError` the final (non-retried) attempt rejects with:
HTTP errors keep their status, a timeout maps to 408, and a transport
error to status 0 (`network.js` lines 38-43, 63, 81). -/
def errOfOutcome (o : AttemptOutcome) (url : String) : NetworkError :=
  match o with
  | AttemptOutcome.success _ => { message := "", statusCode := 0, url := url }
  | AttemptOutcome.httpError status msg =>
    { message := "HTTP " ++ toString status ++ " - " ++ msg,
      statusCode := status, url := url }
  | AttemptOutcome.timeout =>
    { message := "Request timeout", statusCode := 408, url := url }
  | AttemptOutcome.transportError msg =>
    { message := msg, statusCode := 0, url := url }

/-- Whether an attempt outcome is a failure (anything but a body). -/
def isFailureOutcome : AttemptOutcome → Bool
  | AttemptOutcome.success _ => false
  | _ => true

/-- The `attempt(attemptsLeft, delay)` recursion of `fetchWithRetry`
(`network.js` lines 34-83), driven by an oracle giving the outcome of
each attempt (attempt number `retries - attemptsLeft`, starting at 0).
On a failure with `attemptsLeft > 1` the code sleeps `delay` ms
(accumulated in the third result component) and retries with
`min(delay * backoffFactor, maxDelay)`; otherwise it rejects with the
corresponding `NetworkError`. -/
def fetchAttemptLoop (outcomes : Nat → AttemptOutcome) (url : String)
    (retries maxDelay backoffFactor : Nat) :
    Nat → Nat → Nat → Except NetworkError String × Nat
  | 0, _, acc =>
    -- `attemptsLeft > 1` is false: the attempt is not retried
    match outcomes (retries - 0) with
    | AttemptOutcome.success body => (Except.ok body, acc)
    | o => (Except.error (errOfOutcome o url), acc)
  | 1, _, acc =>
    match outcomes (retries - 1) with
    | AttemptOutcome.success body => (Except.ok body, acc)
    | o => (Except.error (errOfOutcome o url), acc)
  | al + 2, delay, acc =>
    -- `attemptsLeft > 1`: sleep `delay`, then retry with the
    -- backoff-multiplied, capped delay
    match outcomes (retries - (al + 2)) with
    | AttemptOutcome.success body => (Except.ok body, acc)
    | _ =>
      fetchAttemptLoop outcomes url retries maxDelay backoffFactor
        (al + 1) (min (delay * backoffFactor) maxDelay) (acc + delay)

/-- `fetchWithRetry` (`network.js` lines 24-87), with the per-attempt
outcomes supplied by an oracle (the `timeout` option only shapes which
outcome an attempt has, so it is part of the oracle).  Also returns
the cumulative scheduled retry delay in milliseconds. -/
def fetchWithRetry (outcomes : Nat → AttemptOutcome) (url : String)
    (retries initialDelay maxDelay backoffFactor : Nat) :
    Except NetworkError String × Nat :=
  fetchAttemptLoop outcomes url retries maxDelay backoffFactor
    retries initialDelay 0

/-! ### Helper lemmas about the string and container primitives -/

theorem splitChar_not_mem {sep : Char} {l : List Char} (h : sep ∉ l) :
    splitChar sep l = [l] := by
  induction l with
  | nil => rfl
  | cons c cs ih =>
    simp only [List.mem_cons, not_or] at h
    simp [splitChar, ih h.2, Ne.symm h.1]

theorem splitChar_append {sep : Char} {l1 : List Char} (l2 : List Char)
    (h : sep ∉ l1) :
    splitChar sep (l1 ++ sep :: l2) = l1 :: splitChar sep l2 := by
  induction l1 with
  | nil => simp [splitChar]
  | cons c cs ih =>
    simp only [List.mem_cons, not_or] at h
    simp only [List.cons_append, splitChar, List.append_eq]
    rw [ih h.2]
    simp [Ne.symm h.1]

theorem data_asString (s : String) : s.data.asString = s := rfl

theorem toList_eq_data (s : String) : s.toList = s.data := rfl

theorem asString_append (l1 l2 : List Char) :
    (l1 ++ l2).asString = l1.asString ++ l2.asString := rfl

theorem startsWithL_single_not {c : Char} {l : List Char} (h : c ∉ l) :
    startsWithL [c] l = false := by
  cases l with
  | nil => rfl
  | cons x xs =>
    simp only [List.mem_cons, not_or] at h
    simp [startsWithL, h.1]

theorem containsS_eq_false_of_not_mem {l : List String} {k : String}
    (h : k ∉ l) : containsS l k = false := by
  induction l with
  | nil => rfl
  | cons x xs ih =>
    simp only [List.mem_cons, not_or] at h
    simp [containsS, Ne.symm h.1, ih h.2]

theorem eraseFirst_append_self {l : List String} {k : String}
    (h : containsS l k = false) : eraseFirst (l ++ [k]) k = l := by
  induction l with
  | nil => simp [eraseFirst]
  | cons x xs ih =>
    simp only [containsS] at h
    by_cases hx : x = k
    · simp [hx] at h
    · simp only [hx, if_neg, if_false] at h
      simp [eraseFirst, hx, ih h]

theorem eraseFirst_addS {l : List String} {k : String}
    (h : containsS l k = false) : eraseFirst (addS l k) k = l := by
  simp [addS, h, eraseFirst_append_self h]

theorem getA_setA_self {α : Type} (m : List (String × α)) (k : String) (v : α) :
    getA (setA m k v) k = some v := by
  induction m with
  | nil => simp [setA, getA]
  | cons p rest ih =>
    by_cases hp : p.1 = k
    · simp [setA, hp, getA]
    · simp [setA, hp, getA, ih]

theorem getA_setA_ne {α : Type} (m : List (String × α)) {k k' : String}
    (v : α) (h : k' ≠ k) : getA (setA m k v) k' = getA m k' := by
  induction m with
  | nil => simp [setA, getA, Ne.symm h]
  | cons p rest ih =>
    by_cases hp : p.1 = k
    · simp [setA, hp, getA, Ne.symm h, hp ▸ (Ne.symm h)]
    · simp only [setA, hp, if_neg, if_false]
      by_cases hp' : p.1 = k'
      · simp [getA, hp']
      · simp [getA, hp', ih]

/-! ### Behaviour of the parser on the inputs the importer builds -/

/-- An input without `@` is treated whole as the package name with the
default version and source. -/
theorem parse_noAt {input : String} (h : '@' ∉ input.toList) :
    parsePackageString input =
      { name := input, version := "latest", source := "npm",
        originalName := input, aliasName := none } := by
  have h' : '@' ∉ input.data := h
  unfold parsePackageString
  simp only [toList_eq_data]
  rw [splitChar_not_mem h']
  simp [joinSep, data_asString]
  intro habs
  exact absurd habs (by decide)

/-- A `name@version` input with a plain name and the version `1.0.0`
(the shape the dependency loop builds). -/
theorem parse_atVer {nm : String} (h : '@' ∉ nm.toList) :
    parsePackageString (nm ++ "@" ++ "1.0.0") =
      { name := nm, version := "1.0.0", source := "npm",
        originalName := nm ++ "@" ++ "1.0.0", aliasName := none } := by
  have h' : '@' ∉ nm.data := h
  unfold parsePackageString
  have hl : (nm ++ "@" ++ "1.0.0").data = nm.data ++ '@' :: "1.0.0".data := by
    simp [String.data_append]
  simp only [toList_eq_data]
  rw [hl, splitChar_append _ h']
  have hx : startsWithL ['@'] nm.data = false := startsWithL_single_not h'
  simp [joinSep, data_asString, hx, splitChar, startsWithL, cleanVersion,
    ParsedPackage.mk.injEq]
  rw [if_neg (by decide : ¬ ((['1', '.', '0', '.', '0'].asString.isEmpty) = true))]
  have hv : (if ['1', '.', '0', '.', '0'].asString = "latest" then ['1', '.', '0', '.', '0'].asString
      else (List.filter (fun c => !decide (c = '^') && !decide (c = '~')) ['1', '.', '0', '.', '0'].asString.data).asString) = "1.0.0" := by decide
  rw [hv]

/-! ### Scenario environments used by concrete counterexamples and
witnesses -/

/-- A dependency-free manifest with an explicit `main` entry. -/
def leafManifest : Manifest :=
  { version := "1.0.0", main := some "index.js", module := none,
    dependencies := [] }

/-- An environment in which every fetch fails with a 404. -/
def env404 : Env :=
  { fetchJson := fun _ => Except.error "HTTP 404 - Not Found",
    fetchText := fun _ => Except.error "HTTP 404 - Not Found",
    compile := fun _ => none,
    validRange := fun _ => true,
    yarnRegistry := none }

/-- An environment in which the primary (unpkg) manifest URL of `p`
fails but the npm-registry fallback URL and the file URL succeed. -/
def envFallback : Env :=
  { fetchJson := fun url =>
      if url = getNpmRegistryUrl "p" "latest" then Except.ok leafManifest
      else Except.error "HTTP 404 - Not Found",
    fetchText := fun url =>
      if url = getNpmFileUrl "p" "1.0.0" "index.js" then Except.ok "module.exports = 1"
      else Except.error "HTTP 404 - Not Found",
    compile := fun _ => none,
    validRange := fun _ => true,
    yarnRegistry := none }

/-- An environment whose compiler always throws. -/
def envCompileFail : Env :=
  { fetchJson := fun _ => Except.error "HTTP 404 - Not Found",
    fetchText := fun _ => Except.ok "broken source",
    compile := fun _ => some "Unexpected token",
    validRange := fun _ => true,
    yarnRegistry := none }

/-! ### C3 -/

/-- C3: the claim says `parsePackageString` preserves a scoped name
`@scope/pkg[@version]` as the single `name` field `@scope/pkg`.  The
code cannot: the scoped branch tests `alias.startsWith('@')`, but
`alias` is the part of the input before its first `@`, which never
contains `@`; the branch is unreachable.  A scoped input therefore
falls into the name`@`version branch with an empty name, contradicting
the function's own documentation (its JSDoc lists `"@scope/package"`
as a supported input and the dead branch is commented
"It's a scoped package").  This theorem evaluates the code at the
failing inputs. -/
theorem c3_scoped_parse_bug :
    parsePackageString "@scope/pkg"
      = { name := "", version := "scope/pkg", source := "npm",
          originalName := "@scope/pkg", aliasName := none }
    ∧ parsePackageString "@scope/pkg@1.0.0"
      = { name := "", version := "scope/pkg@1.0.0", source := "npm",
          originalName := "@scope/pkg@1.0.0", aliasName := none } := by
  constructor <;> decide

/-! ### C8 counterexample -/

/-- C8 counterexample: `clearVirtualModules` does not empty the
in-flight resolution set (`importingDependencies` is absent from the
function body), so the claim that the clear operation empties all
three pieces of state is false: on a state whose in-flight set is
`["pkg"]`, the in-flight set survives the clear. -/
theorem c8_inflight_counterexample :
    (clearVirtualModules
        { St.initial with importingDependencies := ["pkg"] }).importingDependencies
      = ["pkg"] := by
  decide

/-! ### C5 -/

/-- C5 counterexample: a successful import that falls back from the
primary source to the npm registry performs two manifest fetches, so
"exactly one manifest fetch total across both calls" is false even
though the second call performs none.  Both imports succeed, and the
combined fetch log contains the primary manifest URL and the registry
manifest URL — two manifest fetches for `p`. -/
theorem c5_single_fetch_counterexample :
    ((importFromRegistry 1 envFallback St.initial "p" "npm").bind fun r1 =>
      (importFromRegistry 1 envFallback r1.2 "p" "npm").map fun r2 =>
        (r1.1, r2.1,
          r2.2.fetchLog.count (getNpmPackageUrl "p" "latest")
            + r2.2.fetchLog.count (getNpmRegistryUrl "p" "latest")))
      = some (Except.ok (), Except.ok (), 2) := by
  rfl

/-- C5 (amended): re-importing a specifier whose resolved name is
already registered in `virtualModules` is a successful no-op: the
call returns immediately with the state unchanged — in particular no
URL is fetched (the fetch log cannot grow) and the module stays
registered. -/
theorem c5_second_import_noop (n : Nat) (env : Env) (st : St)
    (pkg source : String)
    (h : hasA st.virtualModules (parsePackageString pkg).name = true) :
    importFromRegistry (n + 1) env st pkg source
      = some (Except.ok (), st) := by
  unfold importFromRegistry
  simp [h]

/-- Witness for `c5_second_import_noop` at a concrete loaded state. -/
theorem c5_second_import_noop_witness :
    importFromRegistry 1 env404
        { St.initial with
            virtualModules := [("p", "/virtual_modules/p.js")] }
        "p" "npm"
      = some (Except.ok (),
          { St.initial with
              virtualModules := [("p", "/virtual_modules/p.js")] }) :=
  c5_second_import_noop 0 env404 _ "p" "npm" (by decide)

/-! ### C10 -/

/-- C10: if compiling the fetched (or directly passed) source throws,
`importModuleFiles` re-throws a compile error
(`Failed to compile <name>: <msg>`) and registers nothing: both the
virtual module registry and the require cache are exactly as before
the call. -/
theorem c10_compile_failure_no_registration (env : Env) (st : St)
    (name urlOrContent code msg : String) (isContent : Bool)
    (hcode : (if isContent then (Except.ok urlOrContent : Except String String)
        else env.fetchText urlOrContent) = Except.ok code)
    (hcomp : env.compile code = some msg) :
    (importModuleFiles env st name urlOrContent isContent).1
      = Except.error ("Failed to compile " ++ name ++ ": " ++ msg)
    ∧ (importModuleFiles env st name urlOrContent isContent).2.virtualModules
      = st.virtualModules
    ∧ (importModuleFiles env st name urlOrContent isContent).2.requireCache
      = st.requireCache := by
  cases isContent with
  | true =>
    rw [if_pos rfl] at hcode
    simp only [Except.ok.injEq] at hcode
    subst hcode
    simp [importModuleFiles, hcomp]
  | false =>
    rw [if_neg (by simp)] at hcode
    simp [importModuleFiles, fetchTextE, hcode, hcomp]

/-- Witness for `c10_compile_failure_no_registration` on a concrete
environment whose compiler throws. -/
theorem c10_compile_failure_witness :
    (importModuleFiles envCompileFail St.initial "m" "bad source" true).1
      = Except.error ("Failed to compile " ++ "m" ++ ": " ++ "Unexpected token")
    ∧ (importModuleFiles envCompileFail St.initial "m" "bad source" true).2.virtualModules
      = St.initial.virtualModules
    ∧ (importModuleFiles envCompileFail St.initial "m" "bad source" true).2.requireCache
      = St.initial.requireCache :=
  c10_compile_failure_no_registration envCompileFail St.initial "m"
    "bad source" "bad source" "Unexpected token" true (by rfl) (by rfl)

/-! ### C9 -/

theorem encodeURIComponentL_append (l1 l2 : List Char) :
    encodeURIComponentL (l1 ++ l2)
      = encodeURIComponentL l1 ++ encodeURIComponentL l2 := by
  induction l1 with
  | nil => rfl
  | cons c cs ih => simp [encodeURIComponentL, ih]

/-- C9 counterexample: the URL builders do not keep the `/` of a scoped
name as a path separator — `encodeURIComponent` is applied to the whole
name after the leading `@`, so the `/` becomes `%2F`.  Per-segment
encoding of the (alphanumeric) name `@scope/pkg` would leave
`.../@scope/pkg@1.0.0/...`; the code produces `.../@scope%2Fpkg@1.0.0/...`. -/
theorem c9_scoped_encoding_counterexample :
    getNpmPackageUrl "@scope/pkg" "1.0.0"
        = "https://unpkg.com/@scope%2Fpkg@1.0.0/package.json"
    ∧ getNpmPackageUrl "@scope/pkg" "1.0.0"
        ≠ "https://unpkg.com/@scope/pkg@1.0.0/package.json"
    ∧ getNpmFileUrl "@scope/pkg" "1.0.0" "index.js"
        = "https://unpkg.com/@scope%2Fpkg@1.0.0/index.js"
    ∧ getNpmFileUrl "@scope/pkg" "1.0.0" "index.js"
        ≠ "https://unpkg.com/@scope/pkg@1.0.0/index.js" := by
  refine ⟨by decide, by decide, by decide, by decide⟩

/-- C9 (amended): for every scoped name `@scope/pkg` the builders keep
the leading `@` unencoded and percent-encode the remainder as a single
component; the `/` separating scope from package therefore IS
percent-encoded, as `%2F`, between the separately-encoded scope rest
and package segments. -/
theorem c9_scoped_encoding_amended (s p v f : String) :
    getNpmPackageUrl ("@" ++ s ++ "/" ++ p) v
      = "https://unpkg.com/" ++ "@" ++ encodeURIComponent s ++ "%2F"
          ++ encodeURIComponent p
        ++ (if v.isEmpty then "" else "@" ++ v) ++ "/package.json"
    ∧ getNpmFileUrl ("@" ++ s ++ "/" ++ p) v f
      = "https://unpkg.com/" ++ "@" ++ encodeURIComponent s ++ "%2F"
          ++ encodeURIComponent p
        ++ (if v.isEmpty then "" else "@" ++ v) ++ "/" ++ f := by
  have hdata : ("@" ++ s ++ "/" ++ p).toList
      = '@' :: (s.data ++ '/' :: p.data) := by
    simp [toList_eq_data, String.data_append]
  have key : encodeURIComponent (s.data ++ '/' :: p.data).asString
      = encodeURIComponent s ++ "%2F" ++ encodeURIComponent p := by
    unfold encodeURIComponent
    have h1 : ((s.data ++ '/' :: p.data).asString).toList
        = s.data ++ (['/'] ++ p.data) := rfl
    rw [h1]
    rw [encodeURIComponentL_append, encodeURIComponentL_append]
    rw [asString_append, asString_append]
    rw [show (encodeURIComponentL ['/']).asString = "%2F" from by decide]
    simp [toList_eq_data, String.append_assoc]
  have henc : encodeNpmName ("@" ++ s ++ "/" ++ p)
      = "@" ++ (encodeURIComponent s ++ "%2F" ++ encodeURIComponent p) := by
    unfold encodeNpmName
    rw [hdata]
    show (if '@' = '@' then "@" ++ encodeURIComponent (s.data ++ '/' :: p.data).asString
        else encodeURIComponent ("@" ++ s ++ "/" ++ p)) = _
    rw [if_pos rfl, key]
  constructor
  · unfold getNpmPackageUrl
    rw [henc]
    simp only [String.append_assoc]
  · unfold getNpmFileUrl
    rw [henc]
    simp only [String.append_assoc]

/-! ### C7 -/

theorem fetchAttemptLoop_success (outcomes : Nat → AttemptOutcome)
    (url : String) (retries maxDelay backoffFactor al delay acc : Nat)
    (body : String)
    (h : outcomes (retries - al) = AttemptOutcome.success body) :
    fetchAttemptLoop outcomes url retries maxDelay backoffFactor al delay acc
      = (Except.ok body, acc) := by
  match al with
  | 0 => conv_lhs => unfold fetchAttemptLoop; rw [h]
  | 1 => conv_lhs => unfold fetchAttemptLoop; rw [h]
  | m + 2 => conv_lhs => unfold fetchAttemptLoop; rw [h]

theorem fetchAttemptLoop_retryStep (outcomes : Nat → AttemptOutcome)
    (url : String) (retries maxDelay backoffFactor al delay acc : Nat)
    (h : isFailureOutcome (outcomes (retries - (al + 2))) = true) :
    fetchAttemptLoop outcomes url retries maxDelay backoffFactor
        (al + 2) delay acc
      = fetchAttemptLoop outcomes url retries maxDelay backoffFactor
        (al + 1) (min (delay * backoffFactor) maxDelay) (acc + delay) := by
  cases ho : outcomes (retries - (al + 2)) with
  | success body => rw [ho] at h; simp [isFailureOutcome] at h
  | httpError st ms => conv_lhs => unfold fetchAttemptLoop; rw [ho]
  | timeout => conv_lhs => unfold fetchAttemptLoop; rw [ho]
  | transportError ms => conv_lhs => unfold fetchAttemptLoop; rw [ho]


theorem fetchAttemptLoop_lastFail (outcomes : Nat → AttemptOutcome)
    (url : String) (retries maxDelay backoffFactor delay acc : Nat)
    (h : isFailureOutcome (outcomes (retries - 1)) = true) :
    fetchAttemptLoop outcomes url retries maxDelay backoffFactor 1 delay acc
      = (Except.error (errOfOutcome (outcomes (retries - 1)) url), acc) := by
  cases ho : outcomes (retries - 1) with
  | success body => rw [ho] at h; simp [isFailureOutcome] at h
  | httpError st ms => conv_lhs => unfold fetchAttemptLoop; rw [ho]
  | timeout => conv_lhs => unfold fetchAttemptLoop; rw [ho]
  | transportError ms => conv_lhs => unfold fetchAttemptLoop; rw [ho]

theorem errOfOutcome_url (o : AttemptOutcome) (url : String) :
    (errOfOutcome o url).url = url := by
  cases o <;> rfl

theorem fetchAttemptLoop_allFail (outcomes : Nat → AttemptOutcome)
    (url : String) (retries maxDelay backoffFactor : Nat)
    (hall : ∀ i, i < retries → isFailureOutcome (outcomes i) = true) :
    ∀ n delay acc, n + 1 ≤ retries →
      (fetchAttemptLoop outcomes url retries maxDelay backoffFactor
          (n + 1) delay acc).1
        = Except.error (errOfOutcome (outcomes (retries - 1)) url) := by
  intro n
  induction n with
  | zero =>
    intro delay acc h1
    rw [fetchAttemptLoop_lastFail]
    apply hall
    omega
  | succ m ih =>
    intro delay acc h1
    rw [fetchAttemptLoop_retryStep]
    · exact ih _ _ (by omega)
    · apply hall
      omega

/-- C7: (1) a transport call whose first two attempts fail and whose
third succeeds returns the successful body after a cumulative
scheduled delay of exactly `initialDelay + min (initialDelay *
backoffFactor) maxDelay` (each retry delay is multiplied by
`backoffFactor` and capped at `maxDelay`); (2) a call whose attempts
all fail rejects with the `NetworkError` of the last observed outcome
(HTTP status for an HTTP failure, 408 for a timeout, 0 for a
transport error), carrying the offending URL; (3) when the doubled
delay is not capped, the cumulative delay is at least
`initialDelay + initialDelay * backoffFactor`. -/
theorem c7_retry_backoff (outcomes : Nat → AttemptOutcome) (url : String)
    (retries initialDelay maxDelay backoffFactor : Nat) (body : String) :
    (3 ≤ retries →
      isFailureOutcome (outcomes 0) = true →
      isFailureOutcome (outcomes 1) = true →
      outcomes 2 = AttemptOutcome.success body →
      fetchWithRetry outcomes url retries initialDelay maxDelay backoffFactor
        = (Except.ok body,
            initialDelay + min (initialDelay * backoffFactor) maxDelay))
    ∧ (1 ≤ retries →
      (∀ i, i < retries → isFailureOutcome (outcomes i) = true) →
      (fetchWithRetry outcomes url retries initialDelay maxDelay backoffFactor).1
        = Except.error (errOfOutcome (outcomes (retries - 1)) url)
      ∧ (errOfOutcome (outcomes (retries - 1)) url).url = url)
    ∧ (initialDelay * backoffFactor ≤ maxDelay →
      initialDelay + initialDelay * backoffFactor
        ≤ initialDelay + min (initialDelay * backoffFactor) maxDelay) := by
  refine ⟨?_, ?_, ?_⟩
  · intro h3 hf0 hf1 hs
    obtain ⟨k, rfl⟩ : ∃ k, retries = k + 3 :=
      ⟨retries - 3, by omega⟩
    unfold fetchWithRetry
    rw [show k + 3 = (k + 1) + 2 from by omega]
    rw [fetchAttemptLoop_retryStep _ _ _ _ _ _ _ _
      (by rw [show (k + 1) + 2 - ((k + 1) + 2) = 0 from by omega]; exact hf0)]
    rw [show k + 1 + 1 = k + 2 from by omega]
    rw [fetchAttemptLoop_retryStep _ _ _ _ _ _ _ _
      (by rw [show (k + 1) + 2 - (k + 2) = 1 from by omega]; exact hf1)]
    rw [fetchAttemptLoop_success _ _ _ _ _ _ _ _ body
      (by rw [show (k + 1) + 2 - (k + 1) = 2 from by omega]; exact hs)]
    simp
  · intro h1 hall
    obtain ⟨k, rfl⟩ : ∃ k, retries = k + 1 :=
      ⟨retries - 1, by omega⟩
    unfold fetchWithRetry
    exact ⟨fetchAttemptLoop_allFail outcomes url (k + 1) maxDelay
      backoffFactor hall k initialDelay 0 (by omega), errOfOutcome_url _ _⟩
  · intro hcap
    simp [min_eq_left hcap]

/-- Witness for `c7_retry_backoff`: a concrete oracle that fails with
HTTP 500 and then a timeout before succeeding, and a concrete oracle
that always times out. -/
theorem c7_retry_backoff_witness :
    fetchWithRetry
        (fun i => if i = 0 then AttemptOutcome.httpError 500 "Internal Server Error"
          else if i = 1 then AttemptOutcome.timeout
          else AttemptOutcome.success "payload")
        "https://registry.example/x" 3 1000 10000 2
      = (Except.ok "payload", 1000 + min (1000 * 2) 10000)
    ∧ (fetchWithRetry (fun _ => AttemptOutcome.timeout)
        "https://registry.example/x" 3 1000 10000 2).1
      = Except.error (errOfOutcome AttemptOutcome.timeout "https://registry.example/x") :=
  ⟨(c7_retry_backoff _ "https://registry.example/x" 3 1000 10000 2 "payload").1
      (by omega) (by decide) (by decide) (by decide),
    ((c7_retry_backoff (fun _ => AttemptOutcome.timeout)
        "https://registry.example/x" 3 1000 10000 2 "").2.1
      (by omega) (fun i _ => by decide)).1⟩

/-! ### Symbolic execution of `importFromRegistry` on the three member
shapes the claims need: a dependency-free successful import, a
not-found import (primary and fallback both fail), and a member whose
name is already in-flight. -/

theorem importFromRegistry_simple (n : Nat) (env : Env) (st : St) (g : String)
    (mfst : Manifest) (code : String)
    (hat : '@' ∉ g.toList)
    (hv : hasA st.virtualModules g = false)
    (hi : containsS st.importingDependencies g = false)
    (hk : getA st.packageMetadataCache (g ++ "@" ++ "latest") = none)
    (hj : env.fetchJson (getNpmPackageUrl g "latest") = Except.ok mfst)
    (hdeps : mfst.dependencies = [])
    (ht : env.fetchText (getNpmFileUrl g mfst.version (resolveMainFile mfst)) = Except.ok code)
    (hc : env.compile code = none) :
    importFromRegistry (n + 1) env st g "npm" = some (Except.ok (),
      { st with
          packageMetadataCache := setA st.packageMetadataCache (g ++ "@" ++ "latest") mfst,
          fetchLog := st.fetchLog ++ [getNpmPackageUrl g "latest",
            getNpmFileUrl g mfst.version (resolveMainFile mfst)],
          virtualModules := setA st.virtualModules g ("/virtual_modules/" ++ g ++ ".js"),
          requireCache := addS st.requireCache ("/virtual_modules/" ++ g ++ ".js") }) := by
  unfold importFromRegistry importRegistryBody fetchManifest
  rw [parse_noAt hat]
  simp only [hv, Bool.false_eq_true, if_false, hi, fetchJsonE]
  rw [hk]
  simp only [show ¬ (("npm" : String) = "yarn") from by decide, if_false, hj]
  simp only [hdeps, chunksOf5, runDepChunks]
  simp only [importModuleFiles, fetchTextE, Bool.false_eq_true, if_false, ht, hc]
  simp only [List.filter_nil, List.isEmpty_nil, if_true]
  rw [eraseFirst_addS hi]
  simp [List.append_assoc]

theorem importFromRegistry_notFound (n : Nat) (env : Env) (st : St)
    (b eb1 eb2 : String)
    (hat : '@' ∉ b.toList)
    (hv : hasA st.virtualModules b = false)
    (hi : containsS st.importingDependencies b = false)
    (hk : getA st.packageMetadataCache (b ++ "@" ++ "latest") = none)
    (hj1 : env.fetchJson (getNpmPackageUrl b "latest") = Except.error eb1)
    (hj2 : env.fetchJson (getNpmRegistryUrl b "latest") = Except.error eb2) :
    importFromRegistry (n + 1) env st b "npm" = some (Except.error eb2,
      { st with
          fetchLog := st.fetchLog ++ [getNpmPackageUrl b "latest",
            getNpmRegistryUrl b "latest"],
          failedImports := setA st.failedImports b eb2 }) := by
  unfold importFromRegistry importRegistryBody fetchManifest
  rw [parse_noAt hat]
  simp only [hv, Bool.false_eq_true, if_false, hi, fetchJsonE]
  rw [hk]
  simp only [show ¬ (("npm" : String) = "yarn") from by decide, if_false, hj1, hj2]
  rw [eraseFirst_addS hi]
  simp [List.append_assoc]

theorem importFromRegistry_inflight_skip (n : Nat) (env : Env) (st : St)
    (pkg source : String)
    (hv : hasA st.virtualModules (parsePackageString pkg).name = false)
    (hi : containsS st.importingDependencies (parsePackageString pkg).name = true) :
    importFromRegistry (n + 1) env st pkg source
      = some (Except.ok (), warnLog st
          ("Circular dependency detected for "
            ++ (parsePackageString pkg).name ++ ", skipping")) := by
  unfold importFromRegistry
  simp [hv, hi]

/-! ### The in-flight set is restored by every completed resolution -/

theorem warnLog_inflight (st : St) (m : String) :
    (warnLog st m).importingDependencies = st.importingDependencies := rfl

theorem importModuleFiles_inflight (env : Env) (st : St) (nm u : String)
    (b : Bool) (r : Except String Unit) (st' : St)
    (h : importModuleFiles env st nm u b = (r, st')) :
    st'.importingDependencies = st.importingDependencies := by
  unfold importModuleFiles at h
  cases b with
  | true =>
    cases hcc : env.compile u <;> simp [hcc] at h <;> rw [← h.2]
  | false =>
    simp only [Bool.false_eq_true, if_false, fetchTextE] at h
    cases hft : env.fetchText u with
    | error e => simp [hft] at h; rw [← h.2]
    | ok code =>
      cases hcc : env.compile code <;> simp [hft, hcc] at h <;> rw [← h.2]

theorem fetchManifest_inflight (env : Env) (st : St)
    (name version source : String) (r : Except String Manifest) (st' : St)
    (h : fetchManifest env st name version source = (r, st')) :
    st'.importingDependencies = st.importingDependencies := by
  unfold fetchManifest at h
  cases hc : getA st.packageMetadataCache (name ++ "@" ++ version) with
  | some p => simp [hc] at h; rw [← h.2]
  | none =>
    simp only [hc, fetchJsonE] at h
    cases hj : env.fetchJson (if source = "yarn"
        then getYarnPackageUrl env.yarnRegistry name version
        else getNpmPackageUrl name version) with
    | ok p => simp [hj] at h; rw [← h.2]
    | error e =>
      simp only [hj] at h
      cases hj2 : env.fetchJson (getNpmRegistryUrl name version) with
      | ok p => simp [hj2] at h; rw [← h.2]
      | error e2 => simp [hj2] at h; rw [← h.2]

theorem runDeps_inflight (f : St → String → Option (Except String Unit × St))
    (vr : String → Bool)
    (hf : ∀ st p r st', f st p = some (r, st') →
      st'.importingDependencies = st.importingDependencies) :
    ∀ (deps : List (String × String)) (st : St) os st',
      runDeps f vr st deps = some (os, st') →
      st'.importingDependencies = st.importingDependencies := by
  intro deps
  induction deps with
  | nil =>
    intro st os st' h
    simp only [runDeps, Option.some.injEq, Prod.mk.injEq] at h
    rw [← h.2]
  | cons d rest ih =>
    intro st os st' h
    obtain ⟨dn, dv⟩ := d
    simp only [runDeps] at h
    split at h
    · exact absurd h (by simp)
    · split at h
      · exact absurd h (by simp)
      · rename_i x1 a st1 heq1 x2 os2 st2 heq2
        simp only [Option.some.injEq, Prod.mk.injEq] at h
        rw [← h.2, ih _ _ _ heq2]
        exact hf _ _ _ _ heq1
    · split at h
      · exact absurd h (by simp)
      · rename_i x1 e st1 heq1 x2 os2 st2 heq2
        simp only [Option.some.injEq, Prod.mk.injEq] at h
        rw [← h.2, ih _ _ _ heq2]
        exact hf st _ (Except.error e) st1 heq1

theorem runDepChunks_inflight (f : St → String → Option (Except String Unit × St))
    (vr : String → Bool)
    (hf : ∀ st p r st', f st p = some (r, st') →
      st'.importingDependencies = st.importingDependencies) :
    ∀ (cs : List (List (String × String))) (st : St) os st',
      runDepChunks f vr st cs = some (os, st') →
      st'.importingDependencies = st.importingDependencies := by
  intro cs
  induction cs with
  | nil =>
    intro st os st' h
    simp only [runDepChunks, Option.some.injEq, Prod.mk.injEq] at h
    rw [← h.2]
  | cons c rest ih =>
    intro st os st' h
    simp only [runDepChunks] at h
    split at h
    · exact absurd h (by simp)
    · split at h
      · exact absurd h (by simp)
      · rename_i x1 os1 st1 heq1 x2 os2 st2 heq2
        simp only [Option.some.injEq, Prod.mk.injEq] at h
        rw [← h.2, ih _ _ _ heq2]
        exact runDeps_inflight f vr hf c st os1 st1 heq1

theorem warnFold_inflight :
    ∀ (l : List MemberResult) (st : St),
      (l.foldl (fun st f => warnLog st
          ("  - " ++ orFalsy (some f.name) "Unknown" ++ ": " ++ (f.error.getD ""))) st).importingDependencies
        = st.importingDependencies := by
  intro l
  induction l with
  | nil => intro st; rfl
  | cons x xs ih =>
    intro st
    rw [List.foldl_cons, ih]
    rfl

theorem importRegistryBody_inflight
    (impFn : St → String → Option (Except String Unit × St)) (env : Env)
    (hf : ∀ st p r st', impFn st p = some (r, st') →
      st'.importingDependencies = st.importingDependencies) :
    ∀ (st : St) (name version source : String) r st',
      importRegistryBody impFn env st name version source = some (r, st') →
      st'.importingDependencies = st.importingDependencies := by
  intro st name version source r st' h
  unfold importRegistryBody at h
  split at h
  · rename_i e stf heq
    simp only [Option.some.injEq, Prod.mk.injEq] at h
    rw [← h.2]
    exact fetchManifest_inflight env st name version source _ _ heq
  · rename_i pkg stf heq
    split at h
    · exact absurd h (by simp)
    · rename_i x results st2 heq2
      dsimp only at h
      split at h
      · rename_i x3 e st3 heq3
        simp only [Option.some.injEq, Prod.mk.injEq] at h
        rw [← h.2]
        rw [importModuleFiles_inflight env st2 name _ false _ _ heq3]
        rw [runDepChunks_inflight impFn env.validRange hf _ _ _ _ heq2]
        exact fetchManifest_inflight env st name version source _ _ heq
      · rename_i x3 u st3 heq3
        simp only [Option.some.injEq, Prod.mk.injEq] at h
        rw [← h.2]
        have h3 := importModuleFiles_inflight env st2 name _ false _ _ heq3
        have h2 := runDepChunks_inflight impFn env.validRange hf _ _ _ _ heq2
        have h1 := fetchManifest_inflight env st name version source _ _ heq
        by_cases hfail : (results.filter (fun r => !r.success)).isEmpty = true
        · simp only [hfail, if_true]
          rw [h3, h2, h1]
        · simp only [hfail, Bool.false_eq_true, if_false]
          rw [warnFold_inflight]
          rw [warnLog_inflight, h3, h2, h1]

theorem importFromRegistry_inflight :
    ∀ (fuel : Nat) (env : Env) (st : St) (pkg source : String)
      (r : Except String Unit) (st' : St),
      importFromRegistry fuel env st pkg source = some (r, st') →
      st'.importingDependencies = st.importingDependencies := by
  intro fuel
  induction fuel with
  | zero =>
    intro env st pkg source r st' h
    simp [importFromRegistry] at h
  | succ n ih =>
    intro env st pkg source r st' h
    unfold importFromRegistry at h
    dsimp only at h
    split at h
    · simp only [Option.some.injEq, Prod.mk.injEq] at h
      rw [← h.2]
    · split at h
      · simp only [Option.some.injEq, Prod.mk.injEq] at h
        rw [← h.2]
        rfl
      · rename_i hnotin
        split at h
        · exact absurd h (by simp)
        · rename_i e stb heqb
          simp only [Option.some.injEq, Prod.mk.injEq] at h
          rw [← h.2]
          show eraseFirst stb.importingDependencies _ = _
          rw [importRegistryBody_inflight _ env
            (fun st p r st' hh => ih env st p source r st' hh) _ _ _ _ _ _ heqb]
          show eraseFirst (addS st.importingDependencies _) _ = _
          rw [eraseFirst_addS (by simpa using hnotin)]
        · rename_i u stb heqb
          simp only [Option.some.injEq, Prod.mk.injEq] at h
          rw [← h.2]
          show eraseFirst stb.importingDependencies _ = _
          rw [importRegistryBody_inflight _ env
            (fun st p r st' hh => ih env st p source r st' hh) _ _ _ _ _ _ heqb]
          show eraseFirst (addS st.importingDependencies _) _ = _
          rw [eraseFirst_addS (by simpa using hnotin)]

/-! ### Symbolic execution of batch members -/

theorem pop_noSlash {g : String} (h : '/' ∉ g.toList) :
    ((splitChar '/' g.toList).getLastD []).asString = g := by
  have h' : '/' ∉ g.data := h
  rw [show g.toList = g.data from rfl, splitChar_not_mem h']
  simp [data_asString]

theorem importOneMember_notFound (n : Nat) (env : Env) (st : St)
    (results : List String) (b eb1 eb2 : String)
    (hbat : '@' ∉ b.toList)
    (hv : hasA st.virtualModules b = false)
    (hi : containsS st.importingDependencies b = false)
    (hk : getA st.packageMetadataCache (b ++ "@" ++ "latest") = none)
    (hj1 : env.fetchJson (getNpmPackageUrl b "latest") = Except.error eb1)
    (hj2 : env.fetchJson (getNpmRegistryUrl b "latest") = Except.error eb2) :
    importOneMember (n + 1) env st results b
      = some (results, { success := false, name := b, error := some eb2 },
          { st with
              fetchLog := st.fetchLog ++ [getNpmPackageUrl b "latest",
                getNpmRegistryUrl b "latest"],
              failedImports := setA st.failedImports b eb2 }) := by
  unfold importOneMember
  rw [parse_noAt hbat]
  dsimp only
  rw [if_pos (by decide : ((("npm" : String) = "npm" || ("npm" : String) = "yarn")) = true)]
  rw [importFromRegistry_notFound n env st b eb1 eb2 hbat hv hi hk hj1 hj2]

theorem importOneMember_simple (n : Nat) (env : Env) (st : St)
    (results : List String) (g : String) (mfst : Manifest) (code : String)
    (hgat : '@' ∉ g.toList)
    (hgsl : '/' ∉ g.toList)
    (hv : hasA st.virtualModules g = false)
    (hi : containsS st.importingDependencies g = false)
    (hk : getA st.packageMetadataCache (g ++ "@" ++ "latest") = none)
    (hj : env.fetchJson (getNpmPackageUrl g "latest") = Except.ok mfst)
    (hdeps : mfst.dependencies = [])
    (ht : env.fetchText (getNpmFileUrl g mfst.version (resolveMainFile mfst)) = Except.ok code)
    (hc : env.compile code = none) :
    importOneMember (n + 1) env st results g
      = some (insertKey results g,
          { success := true, name := g, error := none },
          { st with
              packageMetadataCache := setA st.packageMetadataCache (g ++ "@" ++ "latest") mfst,
              fetchLog := st.fetchLog ++ [getNpmPackageUrl g "latest",
                getNpmFileUrl g mfst.version (resolveMainFile mfst)],
              virtualModules := setA st.virtualModules g ("/virtual_modules/" ++ g ++ ".js"),
              requireCache := addS st.requireCache ("/virtual_modules/" ++ g ++ ".js") }) := by
  unfold importOneMember
  rw [parse_noAt hgat]
  dsimp only
  rw [if_pos (by decide : ((("npm" : String) = "npm" || ("npm" : String) = "yarn")) = true)]
  rw [importFromRegistry_simple n env st g mfst code hgat hv hi hk hj hdeps ht hc]
  rw [show orFalsy none ((splitChar '/' g.toList).getLastD []).asString
    = ((splitChar '/' g.toList).getLastD []).asString from rfl]
  rw [pop_noSlash hgsl]

theorem importModules_two (env : Env) (g b : String) (mfst : Manifest)
    (code eb1 eb2 : String)
    (hgat : '@' ∉ g.toList) (hgsl : '/' ∉ g.toList) (hbat : '@' ∉ b.toList)
    (hj : env.fetchJson (getNpmPackageUrl g "latest") = Except.ok mfst)
    (hdeps : mfst.dependencies = [])
    (ht : env.fetchText (getNpmFileUrl g mfst.version (resolveMainFile mfst)) = Except.ok code)
    (hc : env.compile code = none)
    (hj1 : env.fetchJson (getNpmPackageUrl b "latest") = Except.error eb1)
    (hj2 : env.fetchJson (getNpmRegistryUrl b "latest") = Except.error eb2) :
    importModules 1 env St.initial [b, g]
      = some ([g],
          { virtualModules := [(g, "/virtual_modules/" ++ g ++ ".js")],
            packageMetadataCache := [(g ++ "@" ++ "latest", mfst)],
            importingDependencies := [],
            failedImports := [(b, eb2)],
            requireCache := ["/virtual_modules/" ++ g ++ ".js"],
            fetchLog := [getNpmPackageUrl b "latest", getNpmRegistryUrl b "latest",
              getNpmPackageUrl g "latest",
              getNpmFileUrl g mfst.version (resolveMainFile mfst)],
            warnings := ["Failed to import " ++ orFalsy (some b) "Unknown"
                ++ ": " ++ eb2,
              "\nImport completed with some failures:",
              "  - " ++ b ++ ": " ++ eb2] }) := by
  unfold importModules St.initial
  dsimp only
  rw [show chunksOf5 [b, g] = [[b, g]] from rfl]
  unfold runBatchChunks runMembers
  have hm1 := importOneMember_notFound 0 env
    { virtualModules := [], packageMetadataCache := [],
      importingDependencies := [], failedImports := [],
      requireCache := [], fetchLog := [], warnings := [] }
    [] b eb1 eb2 hbat rfl rfl rfl hj1 hj2
  rw [hm1]
  dsimp only
  simp only [setA, List.nil_append]
  unfold runMembers
  have hm2 := importOneMember_simple 0 env
    { virtualModules := [], packageMetadataCache := [],
      importingDependencies := [], failedImports := [(b, eb2)],
      requireCache := [],
      fetchLog := [getNpmPackageUrl b "latest", getNpmRegistryUrl b "latest"],
      warnings := [] }
    [] g mfst code hgat hgsl rfl rfl rfl hj hdeps ht hc
  rw [hm2]
  unfold runMembers runBatchChunks
  simp [setA, insertKey, containsS, summaryWarn, warnLog, addS]

/-! ### C1 -/

/-- C1 counterexample: `importModules` does not return a
`{ succeeded, failed }` batch report.  For a batch whose only member
fails, the returned value is the empty `results` object — the failing
specifier and its error message appear nowhere in the return value
(the message is only recorded in the module-level `failedImports` map
and logged), so the claimed report shape is false. -/
theorem c1_report_shape_counterexample :
    (importModules 1 env404 St.initial ["nope"]).map Prod.fst = some []
    ∧ (importModules 1 env404 St.initial ["nope"]).map
        (fun r => getA r.2.failedImports "nope")
      = some (some "HTTP 404 - Not Found") := by
  constructor <;> rfl

/-- C1 (amended): the batch import returns the `results` object whose
keys are the resolved module names of the members that completed
(values are all `undefined`); a failing member contributes no entry to
the returned object — its human-readable error message is recorded in
the module-level `failedImports` map and logged as a warning instead,
the logged name falling back to `Unknown` when the member's name is
the empty string (the `|| 'Unknown'` of `importer.js` line 332). -/
theorem c1_batch_report (env : Env) (g b : String) (mfst : Manifest)
    (code eb1 eb2 : String)
    (hgat : '@' ∉ g.toList) (hgsl : '/' ∉ g.toList) (hbat : '@' ∉ b.toList)
    (hj : env.fetchJson (getNpmPackageUrl g "latest") = Except.ok mfst)
    (hdeps : mfst.dependencies = [])
    (ht : env.fetchText (getNpmFileUrl g mfst.version (resolveMainFile mfst)) = Except.ok code)
    (hc : env.compile code = none)
    (hj1 : env.fetchJson (getNpmPackageUrl b "latest") = Except.error eb1)
    (hj2 : env.fetchJson (getNpmRegistryUrl b "latest") = Except.error eb2) :
    (importModules 1 env St.initial [b, g]).map Prod.fst = some [g]
    ∧ (importModules 1 env St.initial [b, g]).map
        (fun r => getA r.2.failedImports b) = some (some eb2)
    ∧ (importModules 1 env St.initial [b, g]).map
        (fun r => r.2.warnings.contains
          ("Failed to import " ++ orFalsy (some b) "Unknown" ++ ": " ++ eb2))
      = some true := by
  rw [importModules_two env g b mfst code eb1 eb2 hgat hgsl hbat hj hdeps ht hc hj1 hj2]
  simp [getA]

/-- An environment serving one dependency-free package `good` and
failing everything else with a 404. -/
def envTwoW : Env :=
  { fetchJson := fun url =>
      if url = getNpmPackageUrl "good" "latest" then Except.ok leafManifest
      else Except.error "HTTP 404 - Not Found",
    fetchText := fun url =>
      if url = getNpmFileUrl "good" "1.0.0" "index.js" then Except.ok "module.exports = 1"
      else Except.error "HTTP 404 - Not Found",
    compile := fun _ => none,
    validRange := fun _ => true,
    yarnRegistry := none }

/-- Witness for `c1_batch_report` on the concrete batch
`["bad", "good"]` against `envTwoW`. -/
theorem c1_batch_report_witness :
    (importModules 1 envTwoW St.initial ["bad", "good"]).map Prod.fst = some ["good"]
    ∧ (importModules 1 envTwoW St.initial ["bad", "good"]).map
        (fun r => getA r.2.failedImports "bad")
      = some (some "HTTP 404 - Not Found")
    ∧ (importModules 1 envTwoW St.initial ["bad", "good"]).map
        (fun r => r.2.warnings.contains
          ("Failed to import " ++ "bad" ++ ": " ++ "HTTP 404 - Not Found"))
      = some true :=
  c1_batch_report envTwoW "good" "bad" leafManifest "module.exports = 1"
    "HTTP 404 - Not Found" "HTTP 404 - Not Found"
    (by decide) (by decide) (by decide) (by rfl) (by rfl) (by rfl) (by rfl)
    (by rfl) (by rfl)

/-! ### C2 -/

/-- C2: a batch containing a member that fails (its manifest 404s at
the primary source and at the registry fallback) and a member that
succeeds completes normally: the call returns a value (it cannot
reject — the per-member `catch` turns every member failure into a
settled outcome, as the `Option`-free result type of the per-member
handling shows), the succeeding member is registered, the failing
member is not, and the failure is isolated to the failing member. -/
theorem c2_batch_never_rejects (env : Env) (g b : String) (mfst : Manifest)
    (code eb1 eb2 : String)
    (hgat : '@' ∉ g.toList) (hgsl : '/' ∉ g.toList) (hbat : '@' ∉ b.toList)
    (hj : env.fetchJson (getNpmPackageUrl g "latest") = Except.ok mfst)
    (hdeps : mfst.dependencies = [])
    (ht : env.fetchText (getNpmFileUrl g mfst.version (resolveMainFile mfst)) = Except.ok code)
    (hc : env.compile code = none)
    (hj1 : env.fetchJson (getNpmPackageUrl b "latest") = Except.error eb1)
    (hj2 : env.fetchJson (getNpmRegistryUrl b "latest") = Except.error eb2)
    (hgb : g ≠ b) :
    (importModules 1 env St.initial [b, g]).isSome = true
    ∧ (importModules 1 env St.initial [b, g]).map
        (fun r => hasA r.2.virtualModules g) = some true
    ∧ (importModules 1 env St.initial [b, g]).map
        (fun r => hasA r.2.virtualModules b) = some false
    ∧ (importModules 1 env St.initial [b, g]).map
        (fun r => r.2.importingDependencies) = some [] := by
  rw [importModules_two env g b mfst code eb1 eb2 hgat hgsl hbat hj hdeps ht hc hj1 hj2]
  refine ⟨rfl, ?_, ?_, rfl⟩
  · simp [hasA, getA]
  · simp [hasA, getA, hgb]

/-- Witness for `c2_batch_never_rejects` on the concrete batch
`["bad", "good"]` against `envTwoW`. -/
theorem c2_batch_never_rejects_witness :
    (importModules 1 envTwoW St.initial ["bad", "good"]).isSome = true
    ∧ (importModules 1 envTwoW St.initial ["bad", "good"]).map
        (fun r => hasA r.2.virtualModules "good") = some true
    ∧ (importModules 1 envTwoW St.initial ["bad", "good"]).map
        (fun r => hasA r.2.virtualModules "bad") = some false
    ∧ (importModules 1 envTwoW St.initial ["bad", "good"]).map
        (fun r => r.2.importingDependencies) = some [] :=
  c2_batch_never_rejects envTwoW "good" "bad" leafManifest "module.exports = 1"
    "HTTP 404 - Not Found" "HTTP 404 - Not Found"
    (by decide) (by decide) (by decide) (by rfl) (by rfl) (by rfl) (by rfl)
    (by rfl) (by rfl) (by decide)

/-! ### Parser support lemmas -/

theorem splitChar_ne_nil (sep : Char) (l : List Char) : splitChar sep l ≠ [] := by
  cases l with
  | nil => simp [splitChar]
  | cons c cs =>
    unfold splitChar
    by_cases hc : c = sep
    · simp [hc]
    · simp only [hc, if_false]
      cases hr : splitChar sep cs <;> simp

theorem splitChar_cons_head {sep c : Char} (cs : List Char) (hc : c ≠ sep) :
    ∃ h t, splitChar sep (c :: cs) = (c :: h) :: t := by
  unfold splitChar
  simp only [hc, if_false]
  cases hr : splitChar sep cs with
  | nil => exact absurd hr (splitChar_ne_nil sep cs)
  | cons h t => exact ⟨h, t, by simp⟩

theorem startsWithL_exists {p l : List Char} (h : startsWithL p l = true) :
    ∃ t, l = p ++ t := by
  induction p generalizing l with
  | nil => exact ⟨l, rfl⟩
  | cons x xs ih =>
    cases l with
    | nil => simp [startsWithL] at h
    | cons c cs =>
      simp only [startsWithL, Bool.and_eq_true, decide_eq_true_eq] at h
      obtain ⟨t, rfl⟩ := ih h.2
      exact ⟨t, by simp [h.1]⟩

theorem mk_ne_empty {l : List Char} (h : l ≠ []) : l.asString ≠ "" := by
  intro hx
  exact h (congrArg String.data hx)

theorem append_ne_empty_left {a : String} (b : String) (h : a ≠ "") :
    a ++ b ≠ "" := by
  intro hx
  apply h
  have := congrArg String.data hx
  rw [String.data_append] at this
  rcases List.append_eq_nil.mp this with ⟨h1, _⟩
  exact String.ext h1

/-! ### C4 -/

/-- C4 counterexample: the parser's `name` field is not non-empty for
every input — the empty input parses to an empty name (with default
version and source), so the claimed invariant is false as stated. -/
theorem c4_empty_name_counterexample :
    parsePackageString ""
      = { name := "", version := "latest", source := "npm",
          originalName := "", aliasName := none } := by
  decide

/-- C4 (amended): the parser is total and pure (it is a function); an
input without `@` is treated whole as the package name with default
version and source; `source` is always one of `npm`, `github`, `yarn`
(so `npm` whenever no registry prefix is given); and `name` is
non-empty for every non-empty input that does not begin with `@` and
does not use an alias/registry prefix — but not for every input, and
`originalName` always echoes the input. -/
theorem c4_parser_amended (input : String) :
    ('@' ∉ input.toList →
      parsePackageString input
        = { name := input, version := "latest", source := "npm",
            originalName := input, aliasName := none })
    ∧ ((parsePackageString input).source = "npm"
        ∨ (parsePackageString input).source = "github"
        ∨ (parsePackageString input).source = "yarn")
    ∧ (input.toList ≠ [] → input.toList.head? ≠ some '@' →
        (parsePackageString input).aliasName = none →
        (parsePackageString input).name ≠ "")
    ∧ (parsePackageString input).originalName = input := by
  refine ⟨parse_noAt, ?_, ?_, ?_⟩
  · unfold parsePackageString
    dsimp only
    split
    · left; rfl
    · split
      · rename_i hpre
        simp only [Bool.or_eq_true] at hpre
        rcases hpre with (hn | hg) | hy
        · obtain ⟨t, ht⟩ := startsWithL_exists hn
          left
          rw [ht]
          simp only [List.takeWhile]
          rfl
        · obtain ⟨t, ht⟩ := startsWithL_exists hg
          right; left
          rw [ht]
          simp only [List.takeWhile]
          rfl
        · right; right
          obtain ⟨t, ht⟩ := startsWithL_exists hy
          rw [ht]
          simp only [List.takeWhile]
          rfl
      · split
        · left; rfl
        · left; rfl
  · intro h1 h2 h3
    rcases hd : input.toList with _ | ⟨c, cs⟩
    · exact absurd hd h1
    · have hc : c ≠ '@' := by
        intro he
        rw [hd, he] at h2
        simp at h2
      obtain ⟨hh, tt, hsp⟩ := splitChar_cons_head cs hc
      have hd' : input.data = c :: cs := hd
      unfold parsePackageString at h3 ⊢
      dsimp only at h3 ⊢
      rw [toList_eq_data, hd', hsp] at h3 ⊢
      dsimp only [List.headD, List.head?, Option.getD, List.drop_succ_cons,
        List.drop_zero] at h3 ⊢
      by_cases hC1 : ((joinSep '@' tt).asString).isEmpty = true
      · rw [if_pos hC1]
        exact mk_ne_empty (by simp)
      · rw [if_neg hC1] at h3 ⊢
        by_cases hC2 : (startsWithL "npm:".toList ((joinSep '@' tt).asString).toList
            || startsWithL "github:".toList ((joinSep '@' tt).asString).toList
            || startsWithL "yarn:".toList ((joinSep '@' tt).asString).toList) = true
        · rw [if_pos hC2] at h3
          simp at h3
        · rw [if_neg hC2] at h3 ⊢
          by_cases hC3 : (startsWithL "@".toList ((c :: hh).asString).toList) = true
          · rw [if_pos hC3]
            exact append_ne_empty_left _
              (append_ne_empty_left _ (mk_ne_empty (by simp)))
          · rw [if_neg hC3]
            exact mk_ne_empty (by simp)
  · unfold parsePackageString
    dsimp only
    split
    · rfl
    · split
      · rfl
      · split <;> rfl

/-- Witness for `c4_parser_amended` at the concrete input `"lodash"`. -/
theorem c4_parser_amended_witness :
    parsePackageString "lodash"
      = { name := "lodash", version := "latest", source := "npm",
          originalName := "lodash", aliasName := none }
    ∧ ((parsePackageString "lodash").source = "npm"
        ∨ (parsePackageString "lodash").source = "github"
        ∨ (parsePackageString "lodash").source = "yarn")
    ∧ (parsePackageString "lodash").name ≠ ""
    ∧ (parsePackageString "lodash").originalName = "lodash" :=
  ⟨(c4_parser_amended "lodash").1 (by decide),
    (c4_parser_amended "lodash").2.1,
    (c4_parser_amended "lodash").2.2.1 (by decide) (by decide) (by decide),
    (c4_parser_amended "lodash").2.2.2⟩

/-! ### C8 (amended) -/

/-- C8 (amended): `clearVirtualModules` empties the virtual module
registry, the manifest cache and the failed-imports map — but leaves
the in-flight set exactly as it was; and re-importing a name whose
initial-state import succeeded, after a clear, performs a
fresh manifest fetch and a fresh file fetch (the combined fetch log
shows both URLs twice) and re-registers the module. -/
theorem c8_clear_amended (st : St) (env : Env) (g : String)
    (mfst : Manifest) (code : String)
    (hgat : '@' ∉ g.toList)
    (hj : env.fetchJson (getNpmPackageUrl g "latest") = Except.ok mfst)
    (hdeps : mfst.dependencies = [])
    (ht : env.fetchText (getNpmFileUrl g mfst.version (resolveMainFile mfst)) = Except.ok code)
    (hc : env.compile code = none) :
    ((clearVirtualModules st).virtualModules = []
      ∧ (clearVirtualModules st).packageMetadataCache = []
      ∧ (clearVirtualModules st).failedImports = []
      ∧ (clearVirtualModules st).importingDependencies = st.importingDependencies)
    ∧ ((importFromRegistry 1 env St.initial g "npm").bind fun x =>
        (importFromRegistry 1 env (clearVirtualModules x.2) g "npm").map fun y =>
          (x.1, y.1, hasA y.2.virtualModules g, y.2.fetchLog))
      = some (Except.ok (), Except.ok (), true,
          [getNpmPackageUrl g "latest",
            getNpmFileUrl g mfst.version (resolveMainFile mfst),
            getNpmPackageUrl g "latest",
            getNpmFileUrl g mfst.version (resolveMainFile mfst)]) := by
  constructor
  · exact ⟨rfl, rfl, rfl, rfl⟩
  · rw [importFromRegistry_simple 0 env St.initial g mfst code hgat rfl rfl rfl hj hdeps ht hc]
    dsimp only [Option.bind]
    rw [show clearVirtualModules
        { St.initial with
            packageMetadataCache := setA St.initial.packageMetadataCache (g ++ "@" ++ "latest") mfst,
            fetchLog := St.initial.fetchLog ++ [getNpmPackageUrl g "latest",
              getNpmFileUrl g mfst.version (resolveMainFile mfst)],
            virtualModules := setA St.initial.virtualModules g ("/virtual_modules/" ++ g ++ ".js"),
            requireCache := addS St.initial.requireCache ("/virtual_modules/" ++ g ++ ".js") }
      = { St.initial with
            fetchLog := [getNpmPackageUrl g "latest",
              getNpmFileUrl g mfst.version (resolveMainFile mfst)] }
      from by simp [clearVirtualModules, St.initial, setA, addS, containsS, eraseFirst]]
    rw [importFromRegistry_simple 0 env
      { St.initial with
          fetchLog := [getNpmPackageUrl g "latest",
            getNpmFileUrl g mfst.version (resolveMainFile mfst)] }
      g mfst code hgat rfl rfl rfl hj hdeps ht hc]
    simp [hasA, getA, setA, St.initial]

/-- Witness for `c8_clear_amended` against `envTwoW` with the package
`good`, starting the clear from a state with a non-empty in-flight
set. -/
theorem c8_clear_amended_witness :
    ((clearVirtualModules { St.initial with importingDependencies := ["x"] }).virtualModules = []
      ∧ (clearVirtualModules { St.initial with importingDependencies := ["x"] }).packageMetadataCache = []
      ∧ (clearVirtualModules { St.initial with importingDependencies := ["x"] }).failedImports = []
      ∧ (clearVirtualModules { St.initial with importingDependencies := ["x"] }).importingDependencies
        = ({ St.initial with importingDependencies := ["x"] } : St).importingDependencies)
    ∧ ((importFromRegistry 1 envTwoW St.initial "good" "npm").bind fun x =>
        (importFromRegistry 1 envTwoW (clearVirtualModules x.2) "good" "npm").map fun y =>
          (x.1, y.1, hasA y.2.virtualModules "good", y.2.fetchLog))
      = some (Except.ok (), Except.ok (), true,
          [getNpmPackageUrl "good" "latest",
            getNpmFileUrl "good" leafManifest.version (resolveMainFile leafManifest),
            getNpmPackageUrl "good" "latest",
            getNpmFileUrl "good" leafManifest.version (resolveMainFile leafManifest)]) :=
  c8_clear_amended { St.initial with importingDependencies := ["x"] } envTwoW
    "good" leafManifest "module.exports = 1"
    (by decide) (by rfl) (by rfl) (by rfl) (by rfl)

/-! ### C6: two-package dependency cycles -/

theorem importFromRegistry_depSkip (n : Nat) (env : Env) (st : St)
    (nm source : String) (hat : '@' ∉ nm.toList)
    (hv : hasA st.virtualModules nm = false)
    (hi : containsS st.importingDependencies nm = true) :
    importFromRegistry (n + 1) env st (nm ++ "@" ++ "1.0.0") source
      = some (Except.ok (), warnLog st
          ("Circular dependency detected for " ++ nm ++ ", skipping")) := by
  unfold importFromRegistry
  rw [parse_atVer hat]
  simp [hv, hi]

theorem containsS_append_right (l : List String) (k : String) :
    containsS (l ++ [k]) k = true := by
  induction l with
  | nil => simp [containsS]
  | cons x xs ih =>
    by_cases h : x = k <;> simp [containsS, h, ih]

theorem containsS_append_left {l : List String} {k : String}
    (m : List String) (h : containsS l k = true) :
    containsS (l ++ m) k = true := by
  induction l with
  | nil => simp [containsS] at h
  | cons x xs ih =>
    simp only [containsS] at h
    by_cases hx : x = k
    · simp [containsS, hx]
    · simp only [hx, if_false, if_neg] at h
      simp [containsS, hx, ih h]

theorem containsS_addS_self (l : List String) (k : String) :
    containsS (addS l k) k = true := by
  unfold addS
  by_cases h : containsS l k = true
  · simp [h]
  · simp only [Bool.not_eq_true] at h
    simp [h, containsS_append_right]

theorem containsS_addS_mono {l : List String} {k : String} (k' : String)
    (h : containsS l k = true) : containsS (addS l k') k = true := by
  unfold addS
  by_cases h' : containsS l k' = true
  · simp [h', h]
  · simp only [Bool.not_eq_true] at h'
    simp [h', containsS_append_left _ h]

theorem importFromRegistry_cycleDep (n : Nat) (env : Env) (st : St)
    (a b : String) (mB : Manifest) (codeB : String)
    (hbat : '@' ∉ b.toList) (haat : '@' ∉ a.toList)
    (hvb : hasA st.virtualModules b = false)
    (hib : containsS st.importingDependencies b = false)
    (hkb : getA st.packageMetadataCache (b ++ "@" ++ "1.0.0") = none)
    (hjb : env.fetchJson (getNpmPackageUrl b "1.0.0") = Except.ok mB)
    (hdepsB : mB.dependencies = [(a, "1.0.0")])
    (hvr : env.validRange "1.0.0" = true)
    (hva : hasA st.virtualModules a = false)
    (hia : containsS (addS st.importingDependencies b) a = true)
    (htb : env.fetchText (getNpmFileUrl b mB.version (resolveMainFile mB)) = Except.ok codeB)
    (hcb : env.compile codeB = none) :
    importFromRegistry (n + 2) env st (b ++ "@" ++ "1.0.0") "npm"
      = some (Except.ok (),
          { st with
              packageMetadataCache := setA st.packageMetadataCache (b ++ "@" ++ "1.0.0") mB,
              fetchLog := st.fetchLog ++ [getNpmPackageUrl b "1.0.0",
                getNpmFileUrl b mB.version (resolveMainFile mB)],
              warnings := st.warnings
                ++ ["Circular dependency detected for " ++ a ++ ", skipping"],
              virtualModules := setA st.virtualModules b ("/virtual_modules/" ++ b ++ ".js"),
              requireCache := addS st.requireCache ("/virtual_modules/" ++ b ++ ".js") }) := by
  show importFromRegistry (n + 1 + 1) env st (b ++ "@" ++ "1.0.0") "npm" = _
  unfold importFromRegistry importRegistryBody fetchManifest
  rw [parse_atVer hbat]
  simp only [hvb, Bool.false_eq_true, if_false, hib, fetchJsonE]
  rw [hkb]
  simp only [show ¬ (("npm" : String) = "yarn") from by decide, if_false, hjb]
  simp only [hdepsB, chunksOf5]
  unfold runDepChunks runDeps
  simp only [hvr, if_true]
  rw [importFromRegistry_depSkip n env
    { st with
        importingDependencies := addS st.importingDependencies b,
        fetchLog := st.fetchLog ++ [getNpmPackageUrl b "1.0.0"],
        packageMetadataCache := setA st.packageMetadataCache (b ++ "@" ++ "1.0.0") mB }
    a "npm" haat hva hia]
  unfold runDeps
  unfold runDepChunks
  simp only [importModuleFiles, fetchTextE, Bool.false_eq_true, if_false, htb, hcb]
  simp only [List.filter, Bool.not_true, List.isEmpty_nil, if_true]
  simp only [warnLog]
  rw [eraseFirst_addS hib]
  simp [List.append_assoc]

theorem importFromRegistry_cycleTop (n : Nat) (env : Env) (st : St)
    (a b : String) (mA mB : Manifest) (codeA codeB : String)
    (haat : '@' ∉ a.toList) (hbat : '@' ∉ b.toList)
    (hva : hasA st.virtualModules a = false)
    (hvb : hasA st.virtualModules b = false)
    (hia : containsS st.importingDependencies a = false)
    (hib : containsS (addS st.importingDependencies a) b = false)
    (hka : getA st.packageMetadataCache (a ++ "@" ++ "latest") = none)
    (hkb : getA st.packageMetadataCache (b ++ "@" ++ "1.0.0") = none)
    (hkk : (b ++ "@" ++ "1.0.0") ≠ (a ++ "@" ++ "latest"))
    (hja : env.fetchJson (getNpmPackageUrl a "latest") = Except.ok mA)
    (hdepsA : mA.dependencies = [(b, "1.0.0")])
    (hvr : env.validRange "1.0.0" = true)
    (hjb : env.fetchJson (getNpmPackageUrl b "1.0.0") = Except.ok mB)
    (hdepsB : mB.dependencies = [(a, "1.0.0")])
    (htb : env.fetchText (getNpmFileUrl b mB.version (resolveMainFile mB)) = Except.ok codeB)
    (hcb : env.compile codeB = none)
    (hta : env.fetchText (getNpmFileUrl a mA.version (resolveMainFile mA)) = Except.ok codeA)
    (hca : env.compile codeA = none) :
    importFromRegistry (n + 3) env st a "npm"
      = some (Except.ok (),
          { st with
              packageMetadataCache := setA (setA st.packageMetadataCache
                (a ++ "@" ++ "latest") mA) (b ++ "@" ++ "1.0.0") mB,
              fetchLog := st.fetchLog ++ [getNpmPackageUrl a "latest",
                getNpmPackageUrl b "1.0.0",
                getNpmFileUrl b mB.version (resolveMainFile mB),
                getNpmFileUrl a mA.version (resolveMainFile mA)],
              warnings := st.warnings
                ++ ["Circular dependency detected for " ++ a ++ ", skipping"],
              virtualModules := setA (setA st.virtualModules
                b ("/virtual_modules/" ++ b ++ ".js")) a ("/virtual_modules/" ++ a ++ ".js"),
              requireCache := addS (addS st.requireCache
                ("/virtual_modules/" ++ b ++ ".js")) ("/virtual_modules/" ++ a ++ ".js") }) := by
  show importFromRegistry (n + 2 + 1) env st a "npm" = _
  unfold importFromRegistry importRegistryBody fetchManifest
  rw [parse_noAt haat]
  simp only [hva, Bool.false_eq_true, if_false, hia, fetchJsonE]
  rw [hka]
  simp only [show ¬ (("npm" : String) = "yarn") from by decide, if_false, hja]
  simp only [hdepsA, chunksOf5]
  unfold runDepChunks runDeps
  simp only [hvr, if_true]
  rw [importFromRegistry_cycleDep n env
    { st with
        importingDependencies := addS st.importingDependencies a,
        fetchLog := st.fetchLog ++ [getNpmPackageUrl a "latest"],
        packageMetadataCache := setA st.packageMetadataCache (a ++ "@" ++ "latest") mA }
    a b mB codeB hbat haat hvb hib
    (by rw [show getA (setA st.packageMetadataCache (a ++ "@" ++ "latest") mA) (b ++ "@" ++ "1.0.0")
        = getA st.packageMetadataCache (b ++ "@" ++ "1.0.0")
      from getA_setA_ne st.packageMetadataCache mA hkk]; exact hkb)
    hjb hdepsB hvr hva
    (containsS_addS_mono b (containsS_addS_self st.importingDependencies a))
    htb hcb]
  unfold runDeps
  unfold runDepChunks
  simp only [importModuleFiles, fetchTextE, Bool.false_eq_true, if_false, hta, hca]
  simp only [List.filter, Bool.not_true, List.isEmpty_nil, if_true]
  rw [eraseFirst_addS hia]
  simp [List.append_assoc]

theorem importModules_cycle (n : Nat) (env : Env) (a b : String)
    (mA mB : Manifest) (codeA codeB : String)
    (haat : '@' ∉ a.toList) (hasl : '/' ∉ a.toList) (hbat : '@' ∉ b.toList)
    (hab : ¬ (a = b))
    (hkk : (b ++ "@" ++ "1.0.0") ≠ (a ++ "@" ++ "latest"))
    (hpp : ("/virtual_modules/" ++ b ++ ".js") ≠ ("/virtual_modules/" ++ a ++ ".js"))
    (hja : env.fetchJson (getNpmPackageUrl a "latest") = Except.ok mA)
    (hdepsA : mA.dependencies = [(b, "1.0.0")])
    (hvr : env.validRange "1.0.0" = true)
    (hjb : env.fetchJson (getNpmPackageUrl b "1.0.0") = Except.ok mB)
    (hdepsB : mB.dependencies = [(a, "1.0.0")])
    (htb : env.fetchText (getNpmFileUrl b mB.version (resolveMainFile mB)) = Except.ok codeB)
    (hcb : env.compile codeB = none)
    (hta : env.fetchText (getNpmFileUrl a mA.version (resolveMainFile mA)) = Except.ok codeA)
    (hca : env.compile codeA = none) :
    importModules (n + 3) env St.initial [a]
      = some ([a],
          { virtualModules := [(b, "/virtual_modules/" ++ b ++ ".js"),
              (a, "/virtual_modules/" ++ a ++ ".js")],
            packageMetadataCache := [(a ++ "@" ++ "latest", mA),
              (b ++ "@" ++ "1.0.0", mB)],
            importingDependencies := [],
            failedImports := [],
            requireCache := ["/virtual_modules/" ++ b ++ ".js",
              "/virtual_modules/" ++ a ++ ".js"],
            fetchLog := [getNpmPackageUrl a "latest", getNpmPackageUrl b "1.0.0",
              getNpmFileUrl b mB.version (resolveMainFile mB),
              getNpmFileUrl a mA.version (resolveMainFile mA)],
            warnings := ["Circular dependency detected for " ++ a ++ ", skipping"] }) := by
  unfold importModules St.initial
  dsimp only
  rw [show chunksOf5 [a] = [[a]] from rfl]
  unfold runBatchChunks runMembers importOneMember
  rw [parse_noAt haat]
  dsimp only
  rw [if_pos (by decide : ((("npm" : String) = "npm" || ("npm" : String) = "yarn")) = true)]
  rw [importFromRegistry_cycleTop n env
    { virtualModules := [], packageMetadataCache := [],
      importingDependencies := [], failedImports := [],
      requireCache := [], fetchLog := [], warnings := [] }
    a b mA mB codeA codeB haat hbat rfl rfl rfl
    (by simp [addS, containsS, hab]) rfl rfl hkk hja hdepsA hvr hjb hdepsB
    htb hcb hta hca]
  rw [show orFalsy none ((splitChar '/' a.toList).getLastD []).asString
    = ((splitChar '/' a.toList).getLastD []).asString from rfl]
  rw [pop_noSlash hasl]
  unfold runMembers
  dsimp only
  unfold runBatchChunks
  simp [setA, insertKey, containsS, addS, List.filter, Ne.symm hab, Ne.symm hkk, hpp]

/-- A manifest that depends on one other package (used by the cycle
scenarios). -/
def cycleManifest (dep : String) : Manifest :=
  { version := "1.0.0", main := some "index.js", module := none,
    dependencies := [(dep, "1.0.0")] }

/-- C6: for every two-package dependency cycle (`a` depends on `b` and
`b` depends on `a`, served by any transport oracle satisfying the
stated equations) the batch import of `a` terminates — already with
fuel 3, for every larger fuel — and completes normally with BOTH names
registered; the in-flight set is empty at the end, and the circular
dependency warning is recorded.  In addition (final conjunct), every
completed `importFromRegistry` call — succeeding or failing — restores
the in-flight set exactly to what it was before the call. -/
theorem c6_cycle_terminates (n : Nat) (env : Env) (a b : String)
    (mA mB : Manifest) (codeA codeB : String)
    (haat : '@' ∉ a.toList) (hasl : '/' ∉ a.toList) (hbat : '@' ∉ b.toList)
    (hab : ¬ (a = b))
    (hkk : (b ++ "@" ++ "1.0.0") ≠ (a ++ "@" ++ "latest"))
    (hpp : ("/virtual_modules/" ++ b ++ ".js") ≠ ("/virtual_modules/" ++ a ++ ".js"))
    (hja : env.fetchJson (getNpmPackageUrl a "latest") = Except.ok mA)
    (hdepsA : mA.dependencies = [(b, "1.0.0")])
    (hvr : env.validRange "1.0.0" = true)
    (hjb : env.fetchJson (getNpmPackageUrl b "1.0.0") = Except.ok mB)
    (hdepsB : mB.dependencies = [(a, "1.0.0")])
    (htb : env.fetchText (getNpmFileUrl b mB.version (resolveMainFile mB)) = Except.ok codeB)
    (hcb : env.compile codeB = none)
    (hta : env.fetchText (getNpmFileUrl a mA.version (resolveMainFile mA)) = Except.ok codeA)
    (hca : env.compile codeA = none) :
    (importModules (n + 3) env St.initial [a]).isSome = true
    ∧ (importModules (n + 3) env St.initial [a]).map Prod.fst = some [a]
    ∧ (importModules (n + 3) env St.initial [a]).map
        (fun r => hasA r.2.virtualModules a) = some true
    ∧ (importModules (n + 3) env St.initial [a]).map
        (fun r => hasA r.2.virtualModules b) = some true
    ∧ (importModules (n + 3) env St.initial [a]).map
        (fun r => r.2.importingDependencies) = some []
    ∧ (importModules (n + 3) env St.initial [a]).map
        (fun r => r.2.warnings.contains
          ("Circular dependency detected for " ++ a ++ ", skipping")) = some true
    ∧ (∀ (fuel : Nat) (env' : Env) (st : St) (pkg source : String)
        (r : Except String Unit) (st' : St),
        importFromRegistry fuel env' st pkg source = some (r, st') →
        st'.importingDependencies = st.importingDependencies) := by
  rw [importModules_cycle n env a b mA mB codeA codeB haat hasl hbat hab hkk
    hpp hja hdepsA hvr hjb hdepsB htb hcb hta hca]
  refine ⟨rfl, rfl, ?_, ?_, rfl, ?_,
    fun fuel env' st pkg source r st' h =>
      importFromRegistry_inflight fuel env' st pkg source r st' h⟩
  · simp [hasA, getA, Ne.symm hab]
  · simp [hasA, getA, Ne.symm hab]
  · simp

/-- A transport oracle serving the two-package cycle
`aaa ↔ bbb`. -/
def envCycleW : Env :=
  { fetchJson := fun url =>
      if url = getNpmPackageUrl "aaa" "latest" then Except.ok (cycleManifest "bbb")
      else if url = getNpmPackageUrl "bbb" "1.0.0" then Except.ok (cycleManifest "aaa")
      else Except.error "HTTP 404 - Not Found",
    fetchText := fun url =>
      if url = getNpmFileUrl "bbb" "1.0.0" "index.js" then Except.ok "module.exports = 2"
      else if url = getNpmFileUrl "aaa" "1.0.0" "index.js" then Except.ok "module.exports = 1"
      else Except.error "HTTP 404 - Not Found",
    compile := fun _ => none,
    validRange := fun _ => true,
    yarnRegistry := none }

/-- Witness for `c6_cycle_terminates` on the concrete cycle
`aaa ↔ bbb` against `envCycleW`, at the smallest sufficient fuel. -/
theorem c6_cycle_terminates_witness :
    (importModules 3 envCycleW St.initial ["aaa"]).isSome = true
    ∧ (importModules 3 envCycleW St.initial ["aaa"]).map Prod.fst = some ["aaa"]
    ∧ (importModules 3 envCycleW St.initial ["aaa"]).map
        (fun r => hasA r.2.virtualModules "aaa") = some true
    ∧ (importModules 3 envCycleW St.initial ["aaa"]).map
        (fun r => hasA r.2.virtualModules "bbb") = some true
    ∧ (importModules 3 envCycleW St.initial ["aaa"]).map
        (fun r => r.2.importingDependencies) = some []
    ∧ (importModules 3 envCycleW St.initial ["aaa"]).map
        (fun r => r.2.warnings.contains
          ("Circular dependency detected for " ++ "aaa" ++ ", skipping")) = some true :=
  have h := c6_cycle_terminates 0 envCycleW "aaa" "bbb"
    (cycleManifest "bbb") (cycleManifest "aaa")
    "module.exports = 1" "module.exports = 2"
    (by decide) (by decide) (by decide) (by decide) (by decide) (by decide)
    (by rfl) (by rfl) (by rfl) (by rfl) (by rfl) (by rfl) (by rfl) (by rfl)
    (by rfl)
  ⟨h.1, h.2.1, h.2.2.1, h.2.2.2.1, h.2.2.2.2.1, h.2.2.2.2.2.1⟩
